import Mathlib

/-!
# FPL Hub: the proxy layer, the client service, the data hooks and the helpers

A shallow embedding of the route handlers under `src/app/api/fpl/`, of
`src/lib/fpl-api-utils.js`, of `src/services/fplService.js`, of the hooks
`useManagerData` and `useLiveGameweek` of `src/hooks/useFPLData.js`, and of
`getPlayerStatus` and `sortPlayers` of `src/utils/fplHelpers.js`.

* Route parameters are strings, exactly as the framework hands them to a
  handler; the JavaScript coercions the guards rely on (`!s`, `isNaN(s)`,
  `s < 1`, `s > 38`) are modelled by `StringToNumber`, the ECMAScript
  conversion of a string to a Number value, including the rounding of the
  literal's mathematical value to binary64.
* The upstream API is a function from the outgoing request to the outcome of
  `fetch`; a handler run returns the response together with the list of
  upstream requests it issued.
* A service function returns the parsed value or the message of the error it
  throws. A hook callback is a function from the state before to the state
  after, together with the ordered events of the run.
* `console.error` only writes to the log and is left out.
-/

namespace FplHub

/-! ## Number values and the conversion of strings to numbers -/

/-- Number values as far as the handlers observe them: NaN, the two infinities
and the finite values (a finite binary64 value is a rational; the sign of zero
is not observable through `isNaN`, `<` or `>` and is dropped). -/
inductive JSNumber where
  | nan
  | posInf
  | negInf
  | fin (q : ℚ)
  deriving DecidableEq

namespace JSNumber

/-- The global `isNaN` applied to a Number value. -/
def isNaN : JSNumber → Bool
  | nan => true
  | _ => false

/-- The relational operator `x < y` on Number values: false as soon as one
side is NaN. -/
def lt : JSNumber → JSNumber → Bool
  | fin a, fin b => decide (a < b)
  | negInf, fin _ => true
  | negInf, posInf => true
  | fin _, posInf => true
  | _, _ => false

/-- Unary minus on Number values. -/
def neg : JSNumber → JSNumber
  | nan => nan
  | posInf => negInf
  | negInf => posInf
  | fin q => fin (-q)

end JSNumber

/-- Round a rational to the nearest integer, ties to the even one. -/
def roundHalfEven (q : ℚ) : ℤ :=
  let f := ⌊q⌋
  let r := q - f
  if r < 1 / 2 then f else if 1 / 2 < r then f + 1 else if f % 2 = 0 then f else f + 1

/-- Halve `n` until it is below 2, at most `fuel` times, counting the steps. -/
def log2Fuel : Nat → Nat → Nat
  | 0, _ => 0
  | fuel + 1, n => if 2 ≤ n then log2Fuel fuel (n / 2) + 1 else 0

/-- The position of the leading binary digit of `n`: the `k` with
`2 ^ k ≤ n < 2 ^ (k + 1)` for `n > 0` (halving `n` times is always enough). -/
def natLog2 (n : Nat) : Nat := log2Fuel n n

/-- The integer `e` with `2 ^ e ≤ q < 2 ^ (e + 1)`, for `q > 0`. -/
def floorLog2 (q : ℚ) : ℤ :=
  let e0 : ℤ := (natLog2 q.num.natAbs : ℤ) - (natLog2 q.den : ℤ)
  if (2 : ℚ) ^ e0 ≤ q then e0 else e0 - 1

/-- The Number value of a non-negative mathematical value: round to the nearest
binary64 value (53-bit significand, least exponent -1022, ties to even), and to
`+Infinity` from `2 ^ 1024` on. -/
def roundMV (q : ℚ) : JSNumber :=
  if q = 0 then .fin 0 else
  let e := max (floorLog2 q) (-1022)
  let ulp : ℚ := (2 : ℚ) ^ (e - 52)
  let v : ℚ := (roundHalfEven (q / ulp) : ℚ) * ulp
  if (2 : ℚ) ^ (1024 : ℤ) ≤ v then .posInf else .fin v

/-- The characters of `StrWhiteSpaceChar`: white space and line terminators. -/
def isStrWhiteSpace (c : Char) : Bool :=
  let n := c.toNat
  n == 0x09 || n == 0x0A || n == 0x0B || n == 0x0C || n == 0x0D || n == 0x20 ||
  n == 0xA0 || n == 0x1680 || (0x2000 ≤ n && n ≤ 0x200A) || n == 0x2028 ||
  n == 0x2029 || n == 0x202F || n == 0x205F || n == 0x3000 || n == 0xFEFF

/-- Strip leading and trailing `StrWhiteSpace`. -/
def trimWhiteSpace (cs : List Char) : List Char :=
  ((cs.dropWhile isStrWhiteSpace).reverse.dropWhile isStrWhiteSpace).reverse

/-- The value of a digit character in base 16, if it is one. -/
def hexDigit (c : Char) : Option Nat :=
  if '0' ≤ c ∧ c ≤ '9' then some (c.toNat - 48)
  else if 'a' ≤ c ∧ c ≤ 'f' then some (c.toNat - 87)
  else if 'A' ≤ c ∧ c ≤ 'F' then some (c.toNat - 55)
  else none

/-- The value of a digit character in the given base, if it is one. -/
def digitOfBase (base : Nat) (c : Char) : Option Nat :=
  match hexDigit c with
  | some d => if d < base then some d else none
  | none => none

/-- Split off the longest run of leading digits of the given base. -/
def spanDigits (base : Nat) : List Char → List Nat × List Char
  | [] => ([], [])
  | c :: cs =>
    match digitOfBase base c with
    | some d => let r := spanDigits base cs; (d :: r.1, r.2)
    | none => ([], c :: cs)

/-- The number written by a list of digits, most significant first. -/
def digitsValue (base : Nat) (ds : List Nat) : Nat :=
  ds.foldl (fun acc d => acc * base + d) 0

/-- The grammar `NonDecimalIntegerLiteral`: `0x`, `0o` or `0b` (either case)
followed by at least one digit of that base and nothing else. -/
def parseNonDecimal (cs : List Char) : Option Nat :=
  match cs with
  | '0' :: k :: rest =>
    let base : Nat :=
      if k = 'x' ∨ k = 'X' then 16
      else if k = 'o' ∨ k = 'O' then 8
      else if k = 'b' ∨ k = 'B' then 2
      else 0
    if base = 0 then none
    else
      let r := spanDigits base rest
      if r.1 ≠ [] ∧ r.2 = [] then some (digitsValue base r.1) else none
  | _ => none

/-- The grammar `ExponentPart` after its `e`: an optional sign and at least one
decimal digit, up to the end of the input. -/
def parseExponent (cs : List Char) : Option ℤ :=
  let signed : Bool × List Char :=
    match cs with
    | '+' :: t => (false, t)
    | '-' :: t => (true, t)
    | _ => (false, cs)
  let r := spanDigits 10 signed.2
  if r.1 ≠ [] ∧ r.2 = [] then
    some (if signed.1 then -(digitsValue 10 r.1 : ℤ) else (digitsValue 10 r.1 : ℤ))
  else none

/-- The mathematical value of a `StrUnsignedDecimalLiteral` other than
`Infinity`: digits with an optional fraction and an optional exponent, where
the digits before or after the point may be missing but not both. -/
def parseUnsignedDecimal (cs : List Char) : Option ℚ :=
  let ip := spanDigits 10 cs
  let fp : List Nat × List Char :=
    match ip.2 with
    | '.' :: t => spanDigits 10 t
    | _ => ([], ip.2)
  if ip.1 = [] ∧ fp.1 = [] then none
  else
    let mant : ℚ := (digitsValue 10 (ip.1 ++ fp.1) : ℚ)
    let scale : ℤ := -(fp.1.length : ℤ)
    match fp.2 with
    | [] => some (mant * (10 : ℚ) ^ scale)
    | c :: t =>
      if c = 'e' ∨ c = 'E' then
        match parseExponent t with
        | some e => some (mant * (10 : ℚ) ^ (scale + e))
        | none => none
      else none

/-- The grammar `StrDecimalLiteral`: an optional sign, then `Infinity` or an
unsigned decimal literal. -/
def parseDecimal (cs : List Char) : JSNumber :=
  let signed : Bool × List Char :=
    match cs with
    | '+' :: t => (false, t)
    | '-' :: t => (true, t)
    | _ => (false, cs)
  let magnitude : JSNumber :=
    if signed.2 = "Infinity".toList then .posInf
    else
      match parseUnsignedDecimal signed.2 with
      | some q => roundMV q
      | none => .nan
  if signed.1 then magnitude.neg else magnitude

/-- The abstract operation `StringToNumber`: what `Number(s)`, `isNaN(s)` and a
comparison of `s` with a number make of a string. -/
def StringToNumber (s : String) : JSNumber :=
  let cs := trimWhiteSpace s.toList
  if cs = [] then .fin 0
  else
    match parseNonDecimal cs with
    | some n => roundMV n
    | none => parseDecimal cs

/-- The global `isNaN(s)` on a string argument. -/
def isNaN (s : String) : Bool := (StringToNumber s).isNaN

/-- The coercion `!s` of a string: true exactly for the empty string. -/
def jsNot (s : String) : Bool := s.isEmpty

/-- The comparison `s < n` of a string with a number. -/
def jsLt (s : String) (n : ℚ) : Bool := (StringToNumber s).lt (.fin n)

/-- The comparison `s > n` of a string with a number. -/
def jsGt (s : String) (n : ℚ) : Bool := JSNumber.lt (.fin n) (StringToNumber s)

/-! ## Requests, responses and the upstream API -/

/-- JSON values: the value `response.json()` parses from the upstream body and
the value `NextResponse.json` is given to send. -/
inductive Json where
  | null
  | bool (b : Bool)
  | num (x : ℚ)
  | str (s : String)
  | arr (items : List Json)
  | obj (fields : List (String × Json))

/-- The object literal `{ error: msg }` of the error envelope. -/
def errorBody (msg : String) : Json := .obj [("error", .str msg)]

/-- A response built by `NextResponse.json(body, init)`: its status, its body
and the headers given in `init` (the content type that `NextResponse.json` sets
by itself is left implicit). -/
structure NextResponse where
  status : Nat
  body : Json
  headers : List (String × String)

namespace NextResponse

/-- The call `NextResponse.json(body, { status })`. -/
def jsonStatus (body : Json) (status : Nat) : NextResponse :=
  { status := status, body := body, headers := [] }

/-- The call `NextResponse.json(body, { headers })`; the status defaults to 200. -/
def jsonHeaders (body : Json) (headers : List (String × String)) : NextResponse :=
  { status := 200, body := body, headers := headers }

/-- The value of a response header, if it is set. -/
def header (r : NextResponse) (name : String) : Option String :=
  r.headers.lookup name

end NextResponse

/-- The base URL of the upstream API. -/
def FPL_BASE_URL : String := "https://fantasy.premierleague.com/api"

/-- An outgoing `fetch(url, { headers, next: { revalidate } })`. -/
structure FetchCall where
  url : String
  headers : List (String × String)
  revalidate : Nat
  deriving DecidableEq

/-- The request headers every handler sends upstream. -/
def jsonContentType : List (String × String) := [("Content-Type", "application/json")]

/-- The outcome of one `fetch`: the promise rejects (network failure), or it
resolves to a response with a status and a body that `response.json()` either
parses (`some d`) or rejects with a syntax error (`none`). -/
inductive FetchResult where
  | rejected
  | response (status : Nat) (body : Option Json)

/-- The upstream API: the outcome of each outgoing call. -/
abbrev Upstream := FetchCall → FetchResult

/-- The property `response.ok`: the status is in the range 200 to 299. -/
def statusOk (status : Nat) : Bool := decide (200 ≤ status) && decide (status ≤ 299)

/-- The errors a `try` block can throw: the rejection of `fetch`, the
`new Error(...)` a handler throws on `!response.ok`, carrying its message, and
the syntax error of `response.json()`. -/
inductive Thrown where
  | fetchRejected
  | error (message : String)
  | jsonSyntax

/-- What running the `try` block of a handler gives: the response it returns or
the error it throws, and the upstream calls it issued. -/
structure Attempt where
  outcome : Except Thrown NextResponse
  calls : List FetchCall

/-- What running a handler gives: its response and the upstream calls issued. -/
structure Run where
  response : NextResponse
  calls : List FetchCall

/-- The `try { ... } catch (error) { return NextResponse.json({ error: msg },
{ status: 500 }) }` frame shared by all handlers. -/
def catchAll (attempt : Attempt) (msg : String) : Run :=
  match attempt.outcome with
  | .ok r => { response := r, calls := attempt.calls }
  | .error _ => { response := NextResponse.jsonStatus (errorBody msg) 500, calls := attempt.calls }

/-- The tail shared by the handlers without a 404 branch: `await fetch(call)`,
throw on `!response.ok`, `await response.json()`, relay the data with the given
`Cache-Control` value. -/
def relay (upstream : Upstream) (call : FetchCall) (cacheControl : String) : Attempt :=
  match upstream call with
  | .rejected => { outcome := .error .fetchRejected, calls := [call] }
  | .response status body =>
    if !statusOk status then
      { outcome := .error (.error ("FPL API responded with status: " ++ toString status)),
        calls := [call] }
    else
      match body with
      | none => { outcome := .error .jsonSyntax, calls := [call] }
      | some data =>
        { outcome := .ok (NextResponse.jsonHeaders data [("Cache-Control", cacheControl)]),
          calls := [call] }

/-- The tail shared by the handlers with a 404 branch: as `relay`, but an
upstream status 404 returns `{ error: notFound }` with status 404. -/
def relayOr404 (upstream : Upstream) (call : FetchCall) (notFound cacheControl : String) :
    Attempt :=
  match upstream call with
  | .rejected => { outcome := .error .fetchRejected, calls := [call] }
  | .response status body =>
    if !statusOk status then
      if status = 404 then
        { outcome := .ok (NextResponse.jsonStatus (errorBody notFound) 404), calls := [call] }
      else
        { outcome := .error (.error ("FPL API responded with status: " ++ toString status)),
          calls := [call] }
    else
      match body with
      | none => { outcome := .error .jsonSyntax, calls := [call] }
      | some data =>
        { outcome := .ok (NextResponse.jsonHeaders data [("Cache-Control", cacheControl)]),
          calls := [call] }

/-- The 400 response of a failed validation, before any upstream call. -/
def reject (msg : String) : Attempt :=
  { outcome := .ok (NextResponse.jsonStatus (errorBody msg) 400), calls := [] }

/-! ## The helpers of `src/lib/fpl-api-utils.js` -/

/-- The helper `createCacheHeaders(maxAge)`: the template literal
`public, s-maxage=${maxAge}, stale-while-revalidate=${maxAge * 2}`. -/
def createCacheHeaders (maxAge : Nat) : List (String × String) :=
  [("Cache-Control",
    "public, s-maxage=" ++ toString maxAge ++ ", stale-while-revalidate=" ++
      toString (maxAge * 2))]

/-- The helper `validateId(id, fieldName)`: a 400 response when the check
fails, `null` otherwise. The method `String.prototype.toLowerCase` is taken as
a parameter. -/
def validateId (toLowerCase : String → String) (id : String) (fieldName : String) :
    Option NextResponse :=
  if jsNot id || isNaN id then
    some (NextResponse.jsonStatus
      (errorBody ("Valid " ++ toLowerCase fieldName ++ " is required")) 400)
  else none

/-- The helper `validateGameweek(gameweek)`: a 400 response when the check
fails, `null` otherwise. -/
def validateGameweek (gameweek : String) : Option NextResponse :=
  if jsNot gameweek || isNaN gameweek || jsLt gameweek 1 || jsGt gameweek 38 then
    some (NextResponse.jsonStatus (errorBody "Valid gameweek (1-38) is required") 400)
  else none

/-! ## The route handlers, one `GET` per file under `src/app/api/fpl/` -/

namespace BootstrapStatic

/-- The `fetch` call of this handler. -/
def upstreamCall : FetchCall :=
  { url := FPL_BASE_URL ++ "/bootstrap-static/", headers := jsonContentType, revalidate := 900 }

/-- The handler of `bootstrap-static/route.js`. -/
def GET (upstream : Upstream) : Run :=
  catchAll
    (relay upstream upstreamCall
      "public, s-maxage=900, stale-while-revalidate=1800")
    "Failed to fetch bootstrap data"

end BootstrapStatic

namespace Fixtures

/-- The `fetch` call of this handler. -/
def upstreamCall : FetchCall :=
  { url := FPL_BASE_URL ++ "/fixtures/", headers := jsonContentType, revalidate := 1800 }

/-- The handler of `fixtures/route.js`. -/
def GET (upstream : Upstream) : Run :=
  catchAll
    (relay upstream upstreamCall
      "public, s-maxage=1800, stale-while-revalidate=3600")
    "Failed to fetch fixtures"

end Fixtures

namespace EventStatus

/-- The `fetch` call of this handler. -/
def upstreamCall : FetchCall :=
  { url := FPL_BASE_URL ++ "/event-status/", headers := jsonContentType, revalidate := 300 }

/-- The handler of `event-status/route.js`. -/
def GET (upstream : Upstream) : Run :=
  catchAll
    (relay upstream upstreamCall
      "public, s-maxage=300, stale-while-revalidate=600")
    "Failed to fetch event status"

end EventStatus

namespace Live

/-- The `fetch` call of this handler. -/
def upstreamCall (gameweek : String) : FetchCall :=
  { url := FPL_BASE_URL ++ "/event/" ++ gameweek ++ "/live/",
    headers := jsonContentType, revalidate := 120 }

/-- The handler of `live/[gameweek]/route.js`. -/
def GET (gameweek : String) (upstream : Upstream) : Run :=
  catchAll
    (if jsNot gameweek || isNaN gameweek || jsLt gameweek 1 || jsGt gameweek 38 then
      reject "Valid gameweek (1-38) is required"
    else
      relay upstream (upstreamCall gameweek)
        "public, s-maxage=120, stale-while-revalidate=240")
    ("Failed to fetch live data for GW" ++ gameweek)

end Live

namespace DreamTeam

/-- The `fetch` call of this handler. -/
def upstreamCall (gameweek : String) : FetchCall :=
  { url := FPL_BASE_URL ++ "/dream-team/" ++ gameweek ++ "/",
    headers := jsonContentType, revalidate := 1800 }

/-- The handler of `dream-team/[gameweek]/route.js`. -/
def GET (gameweek : String) (upstream : Upstream) : Run :=
  catchAll
    (if jsNot gameweek || isNaN gameweek || jsLt gameweek 1 || jsGt gameweek 38 then
      reject "Valid gameweek (1-38) is required"
    else
      relay upstream (upstreamCall gameweek)
        "public, s-maxage=1800, stale-while-revalidate=3600")
    ("Failed to fetch dream team for GW" ++ gameweek)

end DreamTeam

namespace Player

/-- The `fetch` call of this handler. -/
def upstreamCall (playerId : String) : FetchCall :=
  { url := FPL_BASE_URL ++ "/element-summary/" ++ playerId ++ "/",
    headers := jsonContentType, revalidate := 600 }

/-- The handler of `player/[playerId]/route.js`. -/
def GET (playerId : String) (upstream : Upstream) : Run :=
  catchAll
    (if jsNot playerId || isNaN playerId then
      reject "Valid player ID is required"
    else
      relay upstream (upstreamCall playerId)
        "public, s-maxage=600, stale-while-revalidate=1200")
    ("Failed to fetch player " ++ playerId ++ " summary")

end Player

namespace Manager

/-- The `fetch` call of this handler. -/
def upstreamCall (managerId : String) : FetchCall :=
  { url := FPL_BASE_URL ++ "/entry/" ++ managerId ++ "/",
    headers := jsonContentType, revalidate := 300 }

/-- The handler of `manager/[managerId]/route.js`. -/
def GET (managerId : String) (upstream : Upstream) : Run :=
  catchAll
    (if jsNot managerId || isNaN managerId then
      reject "Valid manager ID is required"
    else
      relayOr404 upstream (upstreamCall managerId)
        "Manager not found"
        "public, s-maxage=300, stale-while-revalidate=600")
    ("Failed to fetch manager " ++ managerId ++ " profile")

end Manager

namespace ManagerHistory

/-- The `fetch` call of this handler. -/
def upstreamCall (managerId : String) : FetchCall :=
  { url := FPL_BASE_URL ++ "/entry/" ++ managerId ++ "/history/",
    headers := jsonContentType, revalidate := 600 }

/-- The handler of `manager/[managerId]/history/route.js`. -/
def GET (managerId : String) (upstream : Upstream) : Run :=
  catchAll
    (if jsNot managerId || isNaN managerId then
      reject "Valid manager ID is required"
    else
      relayOr404 upstream (upstreamCall managerId)
        "Manager history not found"
        "public, s-maxage=600, stale-while-revalidate=1200")
    ("Failed to fetch manager " ++ managerId ++ " history")

end ManagerHistory

namespace ManagerTransfers

/-- The `fetch` call of this handler. -/
def upstreamCall (managerId : String) : FetchCall :=
  { url := FPL_BASE_URL ++ "/entry/" ++ managerId ++ "/transfers/",
    headers := jsonContentType, revalidate := 300 }

/-- The handler of `manager/[managerId]/transfers/route.js`. -/
def GET (managerId : String) (upstream : Upstream) : Run :=
  catchAll
    (if jsNot managerId || isNaN managerId then
      reject "Valid manager ID is required"
    else
      relayOr404 upstream (upstreamCall managerId)
        "Manager transfers not found"
        "public, s-maxage=300, stale-while-revalidate=600")
    ("Failed to fetch manager " ++ managerId ++ " transfers")

end ManagerTransfers

namespace ManagerPicks

/-- The `fetch` call of this handler. -/
def upstreamCall (managerId gameweek : String) : FetchCall :=
  { url := FPL_BASE_URL ++ "/entry/" ++ managerId ++ "/event/" ++ gameweek ++ "/picks/",
    headers := jsonContentType, revalidate := 300 }

/-- The handler of `manager/[managerId]/picks/[gameweek]/route.js`. -/
def GET (managerId gameweek : String) (upstream : Upstream) : Run :=
  catchAll
    (if jsNot managerId || isNaN managerId then
      reject "Valid manager ID is required"
    else if jsNot gameweek || isNaN gameweek || jsLt gameweek 1 || jsGt gameweek 38 then
      reject "Valid gameweek (1-38) is required"
    else
      relayOr404 upstream (upstreamCall managerId gameweek)
        "Manager picks not found for this gameweek"
        "public, s-maxage=300, stale-while-revalidate=600")
    ("Failed to fetch manager " ++ managerId ++ " picks for GW" ++ gameweek)

end ManagerPicks

namespace League

/-- The expression `searchParams.get('page') || '1'`: the first `page` entry of
the query string, or `'1'` when there is none or it is empty. -/
def pageOf (searchParams : List (String × String)) : String :=
  match searchParams.lookup "page" with
  | some p => if jsNot p then "1" else p
  | none => "1"

/-- The `fetch` call of this handler. -/
def upstreamCall (leagueId page : String) : FetchCall :=
  { url := FPL_BASE_URL ++ "/leagues-classic/" ++ leagueId ++ "/standings/?page_standings=" ++
      page,
    headers := jsonContentType, revalidate := 600 }

/-- The handler of `league/[leagueId]/route.js`; `searchParams` is the query
string of `request.url`. -/
def GET (searchParams : List (String × String)) (leagueId : String) (upstream : Upstream) :
    Run :=
  let page := pageOf searchParams
  catchAll
    (if jsNot leagueId || isNaN leagueId then
      reject "Valid league ID is required"
    else if isNaN page || jsLt page 1 then
      reject "Valid page number is required"
    else
      relayOr404 upstream (upstreamCall leagueId page)
        "League not found"
        "public, s-maxage=600, stale-while-revalidate=1200")
    ("Failed to fetch league " ++ leagueId ++ " standings")

end League

/-! ## The local proxy surface -/

/-- A request to the local proxy surface: the route it matches, with the path
parameters (and, for league standings, the query string) it carries. -/
inductive Route where
  | bootstrapStatic
  | fixtures
  | eventStatus
  | live (gameweek : String)
  | dreamTeam (gameweek : String)
  | player (playerId : String)
  | manager (managerId : String)
  | managerHistory (managerId : String)
  | managerTransfers (managerId : String)
  | managerPicks (managerId gameweek : String)
  | league (searchParams : List (String × String)) (leagueId : String)

/-- Run the handler a request is routed to. -/
def serve : Route → Upstream → Run
  | .bootstrapStatic, up => BootstrapStatic.GET up
  | .fixtures, up => Fixtures.GET up
  | .eventStatus, up => EventStatus.GET up
  | .live gw, up => Live.GET gw up
  | .dreamTeam gw, up => DreamTeam.GET gw up
  | .player id, up => Player.GET id up
  | .manager id, up => Manager.GET id up
  | .managerHistory id, up => ManagerHistory.GET id up
  | .managerTransfers id, up => ManagerTransfers.GET id up
  | .managerPicks id gw, up => ManagerPicks.GET id gw up
  | .league sp id, up => League.GET sp id up

example : (Manager.GET "-5" (fun _ => .rejected)).calls.length = 1 := by decide!

/-- The identifier path parameters (manager, league or player ID) of a request. -/
def Route.ids : Route → List String
  | .player id => [id]
  | .manager id => [id]
  | .managerHistory id => [id]
  | .managerTransfers id => [id]
  | .managerPicks id _ => [id]
  | .league _ id => [id]
  | _ => []

/-- The gameweek path parameters of a request. -/
def Route.gameweeks : Route → List String
  | .live gw => [gw]
  | .dreamTeam gw => [gw]
  | .managerPicks _ gw => [gw]
  | _ => []

/-- The error message of a body of the form `{ error: msg }` and of no other. -/
def Json.errorMessage : Json → Option String
  | .obj [("error", .str msg)] => some msg
  | _ => none

/-- Split a list of characters at each occurrence of a separator. -/
def splitAt (sep : Char) : List Char → List (List Char)
  | [] => [[]]
  | c :: cs =>
    if c = sep then [] :: splitAt sep cs
    else
      match splitAt sep cs with
      | [] => [[c]]
      | piece :: pieces => (c :: piece) :: pieces

/-- The value of the directive `name=<seconds>` in a `Cache-Control` value, read
the way a cache does: directives are separated by commas, optional blanks
around them are ignored. -/
def cacheDirective (name : String) (value : String) : Option Nat :=
  (splitAt ',' value.toList).findSome? fun piece =>
    let directive := trimWhiteSpace piece
    if (name.toList ++ ['=']).isPrefixOf directive then
      let r := spanDigits 10 (directive.drop (name.length + 1))
      if r.1 ≠ [] ∧ r.2 = [] then some (digitsValue 10 r.1) else none
    else none

/-- The freshness windows as the specification documents them: 120 for live
gameweek; 300 for event status, manager profile, manager picks and manager
transfers; 600 for player summary, manager history and league standings; 900
for bootstrap static; 1800 for fixtures and dream team. -/
def documentedWindow : Route → Nat
  | .live _ => 120
  | .eventStatus => 300
  | .manager _ => 300
  | .managerPicks _ _ => 300
  | .managerTransfers _ => 300
  | .player _ => 600
  | .managerHistory _ => 600
  | .league _ _ => 600
  | .bootstrapStatic => 900
  | .fixtures => 1800
  | .dreamTeam _ => 1800

/-! ## The client data-access service, `src/services/fplService.js` -/

/-- The browser's `fetch` of a local proxy path: the outcome for each URL. -/
abbrev ClientFetch := String → FetchResult

/-- The base URL of the local API routes. -/
def API_BASE_URL : String := "/api/fpl"

namespace fplService

/-- The `try` block shared by the service functions: `await fetch(url)`, throw
`new Error("HTTP error! status: ...")` on `!response.ok`, otherwise
`return await response.json()`. -/
def tryFetch (fetch : ClientFetch) (url : String) : Except Thrown Json :=
  match fetch url with
  | .rejected => .error .fetchRejected
  | .response status body =>
    if !statusOk status then .error (.error ("HTTP error! status: " ++ toString status))
    else
      match body with
      | none => .error .jsonSyntax
      | some data => .ok data

/-- The `catch (error) { throw new Error(label) }` frame shared by the service
functions: the result is the returned value or the message of the error
thrown. -/
def rethrow (attempt : Except Thrown Json) (label : String) : Except String Json :=
  match attempt with
  | .ok data => .ok data
  | .error _ => .error label

/-- The service function `getBootstrapStatic()`. -/
def getBootstrapStatic (fetch : ClientFetch) : Except String Json :=
  rethrow (tryFetch fetch (API_BASE_URL ++ "/bootstrap-static")) "Failed to fetch bootstrap data"

/-- The service function `getPlayerSummary(playerId)`; an argument stands for
the text the template literals make of it. -/
def getPlayerSummary (fetch : ClientFetch) (playerId : String) : Except String Json :=
  rethrow (tryFetch fetch (API_BASE_URL ++ "/player/" ++ playerId))
    ("Failed to fetch player " ++ playerId ++ " summary")

/-- The service function `getManagerProfile(managerId)`. -/
def getManagerProfile (fetch : ClientFetch) (managerId : String) : Except String Json :=
  rethrow (tryFetch fetch (API_BASE_URL ++ "/manager/" ++ managerId))
    ("Failed to fetch manager " ++ managerId ++ " profile")

/-- The service function `getManagerPicks(managerId, gameweek)`. -/
def getManagerPicks (fetch : ClientFetch) (managerId gameweek : String) : Except String Json :=
  rethrow (tryFetch fetch (API_BASE_URL ++ "/manager/" ++ managerId ++ "/picks/" ++ gameweek))
    ("Failed to fetch manager " ++ managerId ++ " picks for GW" ++ gameweek)

/-- The service function `getManagerHistory(managerId)`. -/
def getManagerHistory (fetch : ClientFetch) (managerId : String) : Except String Json :=
  rethrow (tryFetch fetch (API_BASE_URL ++ "/manager/" ++ managerId ++ "/history"))
    ("Failed to fetch manager " ++ managerId ++ " history")

/-- The service function `getFixtures()`. -/
def getFixtures (fetch : ClientFetch) : Except String Json :=
  rethrow (tryFetch fetch (API_BASE_URL ++ "/fixtures")) "Failed to fetch fixtures"

/-- The service function `getLiveGameweek(gameweek)`. -/
def getLiveGameweek (fetch : ClientFetch) (gameweek : String) : Except String Json :=
  rethrow (tryFetch fetch (API_BASE_URL ++ "/live/" ++ gameweek))
    ("Failed to fetch live data for GW" ++ gameweek)

/-- The service function `getDreamTeam(gameweek)`. -/
def getDreamTeam (fetch : ClientFetch) (gameweek : String) : Except String Json :=
  rethrow (tryFetch fetch (API_BASE_URL ++ "/dream-team/" ++ gameweek))
    ("Failed to fetch dream team for GW" ++ gameweek)

/-- The service function `getLeagueStandings(leagueId, page = 1)`; `none` is an
omitted page. -/
def getLeagueStandings (fetch : ClientFetch) (leagueId : String) (page : Option String) :
    Except String Json :=
  rethrow (tryFetch fetch (API_BASE_URL ++ "/league/" ++ leagueId ++ "?page=" ++ page.getD "1"))
    ("Failed to fetch league " ++ leagueId ++ " standings")

/-- The service function `getEventStatus()`. -/
def getEventStatus (fetch : ClientFetch) : Except String Json :=
  rethrow (tryFetch fetch (API_BASE_URL ++ "/event-status")) "Failed to fetch event status"

/-- The service function `getManagerTransfers(managerId)`. -/
def getManagerTransfers (fetch : ClientFetch) (managerId : String) : Except String Json :=
  rethrow (tryFetch fetch (API_BASE_URL ++ "/manager/" ++ managerId ++ "/transfers"))
    ("Failed to fetch manager " ++ managerId ++ " transfers")

end fplService

/-- The contract the specification gives a service function: with the proxy
response ok and its body parsed as `d` the result is `d`; with a network
failure, a status outside 200..299 or an unparsable body the function throws an
error with the message `label`. -/
def ReturnsOrThrows (fetch : ClientFetch) (url label : String) (result : Except String Json) :
    Prop :=
  (∀ status d, fetch url = .response status (some d) → statusOk status = true →
      result = .ok d) ∧
    ((fetch url = .rejected ∨
        (∃ status body, fetch url = .response status body ∧ statusOk status = false) ∨
        ∃ status, fetch url = .response status none) →
      result = .error label)

/-! ## The data hooks, `src/hooks/useFPLData.js` -/

/-- One entry of `history.current`, a played gameweek, read through its `event`
field. -/
structure HistoryEntry where
  event : Json

/-- The history resource as `useManagerData` reads it: `current` is missing or
a list of entries. -/
structure HistoryData where
  current : Option (List HistoryEntry)

/-- The service as `useManagerData` sees it: for each call, the value its
promise resolves to or the message of the error it rejects with. -/
structure ManagerService where
  getManagerProfile : String → Except String Json
  getManagerHistory : String → Except String HistoryData
  getManagerPicks : String → Json → Except String Json

/-- A call of a service function by `useManagerData`, with its arguments. -/
inductive ServiceCall where
  | getManagerProfile (managerId : String)
  | getManagerHistory (managerId : String)
  | getManagerPicks (managerId : String) (gameweek : Json)

/-- What happens during one run of `fetchManagerData`, in order: a service call
is issued, or the promise of an issued call settles. -/
inductive HookEvent where
  | called (c : ServiceCall)
  | settled (c : ServiceCall)

/-- Whether an event is the issuing of a picks request. -/
def HookEvent.isPicksCall : HookEvent → Bool
  | .called (.getManagerPicks _ _) => true
  | _ => false

/-- The state variables of `useManagerData`; `none` is `null`. -/
structure ManagerState where
  profile : Option Json
  history : Option HistoryData
  currentPicks : Option Json
  loading : Bool
  error : Option String

namespace useManagerData

/-- The expression `await Promise.all([getManagerProfile(id),
getManagerHistory(id)])`, after both calls have been issued: `historyFirst`
says which of the two promises settles first; the `await` resumes with both
values once both have resolved, and throws as soon as one rejects. The events
are those up to that point. -/
def awaitAll (service : ManagerService) (historyFirst : Bool) (managerId : String) :
    Except String (Json × HistoryData) × List HookEvent :=
  match service.getManagerProfile managerId, service.getManagerHistory managerId with
  | .ok p, .ok h =>
    (.ok (p, h),
      if historyFirst then
        [.settled (.getManagerHistory managerId), .settled (.getManagerProfile managerId)]
      else [.settled (.getManagerProfile managerId), .settled (.getManagerHistory managerId)])
  | .error m, .ok _ =>
    (.error m,
      if historyFirst then
        [.settled (.getManagerHistory managerId), .settled (.getManagerProfile managerId)]
      else [.settled (.getManagerProfile managerId)])
  | .ok _, .error m =>
    (.error m,
      if historyFirst then [.settled (.getManagerHistory managerId)]
      else [.settled (.getManagerProfile managerId), .settled (.getManagerHistory managerId)])
  | .error mp, .error mh =>
    if historyFirst then (.error mh, [.settled (.getManagerHistory managerId)])
    else (.error mp, [.settled (.getManagerProfile managerId)])

/-- The `try` block of `fetchManagerData`: whether it completes or throws (with
the message of the error), the state it leaves and the events so far. -/
def tryBlock (service : ManagerService) (historyFirst : Bool) (managerId : String)
    (s : ManagerState) : Except String Unit × ManagerState × List HookEvent :=
  let s₁ := { s with loading := true, error := none }
  let started : List HookEvent :=
    [.called (.getManagerProfile managerId), .called (.getManagerHistory managerId)]
  match awaitAll service historyFirst managerId with
  | (.error m, settles) => (.error m, s₁, started ++ settles)
  | (.ok (profileData, historyData), settles) =>
    let s₂ := { s₁ with profile := some profileData, history := some historyData }
    match historyData.current with
    | some (e :: es) =>
      let currentGW := ((e :: es).getLast (List.cons_ne_nil e es)).event
      let events := started ++ settles ++
        [.called (.getManagerPicks managerId currentGW),
         .settled (.getManagerPicks managerId currentGW)]
      match service.getManagerPicks managerId currentGW with
      | .ok picksData => (.ok (), { s₂ with currentPicks := some picksData }, events)
      | .error m => (.error m, s₂, events)
    | _ => (.ok (), s₂, started ++ settles)

/-- The callback `fetchManagerData` of `useManagerData(managerId)`, run from the
state `s`: the state when it finishes and the events of the run. A manager ID
is `null` (`none`) or a string. -/
def fetchManagerData (service : ManagerService) (historyFirst : Bool)
    (managerId : Option String) (s : ManagerState) : ManagerState × List HookEvent :=
  match managerId with
  | none => (s, [])
  | some id =>
    if jsNot id then (s, [])
    else
      match tryBlock service historyFirst id s with
      | (.ok _, s', events) => ({ s' with loading := false }, events)
      | (.error m, s', events) => ({ s' with error := some m, loading := false }, events)

end useManagerData

/-- The coercion of a JSON value to a boolean. -/
def Json.truthy : Json → Bool
  | .null => false
  | .bool b => b
  | .num x => decide (x ≠ 0)
  | .str s => !s.isEmpty
  | .arr _ => true
  | .obj _ => true

/-- The part of `useLiveGameweek(gameweek, autoRefresh)` that decides when
`getLiveGameweek` is called: whether the hook is mounted, the current value of
the `autoRefresh` flag, whether a 30-second interval is registered, and the
gameweek arguments of the calls issued so far. -/
structure LiveHook where
  mounted : Bool
  autoRefresh : Bool
  interval : Bool
  fetches : List Json

/-- What can happen to the hook: it is mounted, the period of a registered
interval elapses, the caller changes the flag, the hook is torn down. -/
inductive LiveEvent where
  | mount
  | tick
  | setAutoRefresh (flag : Bool)
  | unmount

namespace useLiveGameweek

/-- The hook before it is mounted. -/
def init (autoRefresh : Bool) : LiveHook :=
  { mounted := false, autoRefresh := autoRefresh, interval := false, fetches := [] }

/-- The callback `fetchLiveData`, as far as issuing the call goes: nothing when
`!gameweek` (`none` is `undefined`), otherwise one call of `getLiveGameweek`. -/
def fetchLiveData (gameweek : Option Json) (h : LiveHook) : LiveHook :=
  match gameweek with
  | none => h
  | some g => if !g.truthy then h else { h with fetches := h.fetches ++ [g] }

/-- One step of the hook. Mounting runs both effects: `fetchLiveData()`, then
`setInterval` when the flag is set. A tick runs the interval's callback if an
interval is registered. A change of the flag runs the cleanup of the second
effect (`clearInterval`) and the effect again. Tearing down runs the cleanup. -/
def step (gameweek : Option Json) (h : LiveHook) : LiveEvent → LiveHook
  | .mount =>
    if h.mounted then h
    else { fetchLiveData gameweek h with mounted := true, interval := h.autoRefresh }
  | .tick => if h.interval then fetchLiveData gameweek h else h
  | .setAutoRefresh flag =>
    if !h.mounted then { h with autoRefresh := flag }
    else if flag = h.autoRefresh then h
    else { h with autoRefresh := flag, interval := flag }
  | .unmount => { h with mounted := false, interval := false }

/-- Run a sequence of events. -/
def run (gameweek : Option Json) (h : LiveHook) (events : List LiveEvent) : LiveHook :=
  events.foldl (step gameweek) h

end useLiveGameweek

/-! ## Helpers of `src/utils/fplHelpers.js` and the planner's player list -/

/-- The Number value of a mathematical value of either sign. -/
def roundSigned (q : ℚ) : JSNumber :=
  if q < 0 then (roundMV (-q)).neg else roundMV q

/-- The relational operator `x <= y` on Number values: false as soon as one
side is NaN. -/
def JSNumber.le : JSNumber → JSNumber → Bool
  | .fin a, .fin b => decide (a ≤ b)
  | .negInf, .negInf => true
  | .negInf, .fin _ => true
  | .negInf, .posInf => true
  | .fin _, .posInf => true
  | .posInf, .posInf => true
  | _, _ => false

/-- The operator `x - y` on Number values. -/
def JSNumber.sub : JSNumber → JSNumber → JSNumber
  | .fin a, .fin b => roundSigned (a - b)
  | .fin _, .posInf => .negInf
  | .fin _, .negInf => .posInf
  | .posInf, .fin _ => .posInf
  | .posInf, .negInf => .posInf
  | .negInf, .fin _ => .negInf
  | .negInf, .posInf => .negInf
  | _, _ => .nan

/-- The exponent a decimal literal's longest valid prefix takes from what
follows its `e`: the signed digits, or nothing (0) when no digit follows. -/
def exponentPrefix (cs : List Char) : ℤ :=
  let signed : Bool × List Char :=
    match cs with
    | '+' :: t => (false, t)
    | '-' :: t => (true, t)
    | _ => (false, cs)
  let r := spanDigits 10 signed.2
  if r.1 = [] then 0
  else if signed.1 then -(digitsValue 10 r.1 : ℤ) else (digitsValue 10 r.1 : ℤ)

/-- The mathematical value of the longest prefix that is a
`StrUnsignedDecimalLiteral` other than `Infinity`, if there is one. -/
def parseDecimalPrefix (cs : List Char) : Option ℚ :=
  let ip := spanDigits 10 cs
  let fp : List Nat × List Char :=
    match ip.2 with
    | '.' :: t =>
      let r := spanDigits 10 t
      if ip.1 = [] ∧ r.1 = [] then ([], ip.2) else r
    | _ => ([], ip.2)
  if ip.1 = [] ∧ fp.1 = [] then none
  else
    let mant : ℚ := (digitsValue 10 (ip.1 ++ fp.1) : ℚ)
    let scale : ℤ := -(fp.1.length : ℤ)
    let e : ℤ :=
      match fp.2 with
      | c :: t => if c = 'e' ∨ c = 'E' then exponentPrefix t else 0
      | [] => 0
    some (mant * (10 : ℚ) ^ (scale + e))

/-- The global `parseFloat(s)` on a string: leading white space is skipped and
the longest prefix that is a decimal literal is converted; NaN if there is
none. -/
def parseFloat (s : String) : JSNumber :=
  let cs := s.toList.dropWhile isStrWhiteSpace
  let signed : Bool × List Char :=
    match cs with
    | '+' :: t => (false, t)
    | '-' :: t => (true, t)
    | _ => (false, cs)
  let magnitude : JSNumber :=
    if "Infinity".toList.isPrefixOf signed.2 then .posInf
    else
      match parseDecimalPrefix signed.2 with
      | some q => roundMV q
      | none => .nan
  if signed.1 then magnitude.neg else magnitude

/-- What `getPlayerStatus` returns. -/
structure PlayerStatus where
  text : String
  color : String
  available : Bool
  deriving DecidableEq

/-- The helper `getPlayerStatus(status, chanceOfPlayingNextRound)`; the chance
is `null` (`none`) or a number. -/
def getPlayerStatus (status : String) (chanceOfPlayingNextRound : Option JSNumber) :
    PlayerStatus :=
  if status = "i" then { text := "Injured", color := "status-injured", available := false }
  else if status = "s" then
    { text := "Suspended", color := "status-suspended", available := false }
  else if status = "u" then
    { text := "Unavailable", color := "status-injured", available := false }
  else
    match chanceOfPlayingNextRound with
    | some chance =>
      if chance.le (.fin 25) then
        { text := "25% chance", color := "status-injured", available := false }
      else if chance.le (.fin 50) then
        { text := "50% chance", color := "status-doubt", available := true }
      else if chance.le (.fin 75) then
        { text := "75% chance", color := "status-doubt", available := true }
      else { text := "Available", color := "status-available", available := true }
    | none => { text := "Available", color := "status-available", available := true }

/-- A player element of the bootstrap data, with the fields the sort reads:
the integer-valued counters are integers, the decimal statistics are the
strings the API sends. -/
structure Player where
  id : Nat
  total_points : ℤ
  now_cost : ℤ
  transfers_in_event : ℤ
  form : String
  selected_by_percent : String
  ep_next : String
  deriving DecidableEq

/-- A value that is a number or a string, as `calculatePPM` returns. -/
inductive NumberOrString where
  | number (x : JSNumber)
  | string (s : String)

/-- The numeric coercion of such a value, as the operator `-` applies it. -/
def NumberOrString.toNumber : NumberOrString → JSNumber
  | .number x => x
  | .string s => StringToNumber s

/-- The helper `calculatePPM(totalPoints, price)`: the number 0 when
`!price || price === 0`, otherwise the string
`(totalPoints / formatPrice(price)).toFixed(2)`. That floating-point expression
is the parameter `ratioFixed` of the model. -/
def calculatePPM (ratioFixed : ℤ → ℤ → String) (totalPoints price : ℤ) : NumberOrString :=
  if price = 0 then .number (.fin 0) else .string (ratioFixed totalPoints price)

/-- The comparator `(a, b) => { switch (sortBy) ... }` of `sortPlayers`. -/
def sortComparator (ratioFixed : ℤ → ℤ → String) (sortBy : String) (a b : Player) : JSNumber :=
  if sortBy = "points" then JSNumber.sub (.fin b.total_points) (.fin a.total_points)
  else if sortBy = "price" then JSNumber.sub (.fin b.now_cost) (.fin a.now_cost)
  else if sortBy = "form" then (parseFloat b.form).sub (parseFloat a.form)
  else if sortBy = "selected" then
    (parseFloat b.selected_by_percent).sub (parseFloat a.selected_by_percent)
  else if sortBy = "value" then
    (calculatePPM ratioFixed b.total_points b.now_cost).toNumber.sub
      (calculatePPM ratioFixed a.total_points a.now_cost).toNumber
  else if sortBy = "transfers_in" then
    JSNumber.sub (.fin b.transfers_in_event) (.fin a.transfers_in_event)
  else .fin 0

/-- Whether `Array.prototype.sort` may leave `a` before `b`: the comparator's
result for the pair is not greater than 0 (a NaN result counts as 0). -/
def staysBefore {α : Type} (compare : α → α → JSNumber) (a b : α) : Bool :=
  !(JSNumber.lt (.fin 0) (compare a b))

/-- The method `Array.prototype.sort(compare)` on a copy of the list: a stable
sort, here by insertion. For a consistent comparator every stable sort gives
this result; for an inconsistent one the language leaves the order to the
implementation, and only the content of the result is determined. -/
def sortWith {α : Type} (compare : α → α → JSNumber) (items : List α) : List α :=
  items.insertionSort (fun a b => staysBefore compare a b = true)

/-- The helper `sortPlayers(players, sortBy)`: `[...players].sort(comparator)`. -/
def sortPlayers (ratioFixed : ℤ → ℤ → String) (players : List Player) (sortBy : String) :
    List Player :=
  sortWith (sortComparator ratioFixed sortBy) players

/-- The planner's `availablePlayers`: nothing while the data is missing
(`none`), otherwise `sortPlayers(fplData.elements.filter(keep), sortBy)`, where
`keep` is the filter callback for the current position, search term, price
range, availability switch and team. -/
def availablePlayers (ratioFixed : ℤ → ℤ → String) (keep : Player → Bool)
    (elements : Option (List Player)) (sortBy : String) : List Player :=
  match elements with
  | none => []
  | some players => sortPlayers ratioFixed (players.filter keep) sortBy

/-- The sort options the planner offers, by their `value`. -/
def sortOptions : List String :=
  ["ep_next", "total_points", "form", "value", "selected_by_percent", "now_cost"]

/-! ## The team planner's team, `src/app/transfer-planner/page.js` -/

/-- An entry of the `formations` table. -/
structure Formation where
  defenders : Nat
  midfielders : Nat
  forwards : Nat
  deriving DecidableEq

/-- The table `formations`, by key. -/
def formations : List (String × Formation) :=
  [("3-4-3", { defenders := 3, midfielders := 4, forwards := 3 }),
   ("3-5-2", { defenders := 3, midfielders := 5, forwards := 2 }),
   ("4-3-3", { defenders := 4, midfielders := 3, forwards := 3 }),
   ("4-4-2", { defenders := 4, midfielders := 4, forwards := 2 }),
   ("4-5-1", { defenders := 4, midfielders := 5, forwards := 1 }),
   ("5-3-2", { defenders := 5, midfielders := 3, forwards := 2 }),
   ("5-4-1", { defenders := 5, midfielders := 4, forwards := 1 })]

/-- A slot of the team: `null` (`none`) or a player ID. -/
abbrev Slot := Option Nat

/-- The coercion `Boolean(slot)`: `null` and the ID 0 are falsy. -/
def Slot.filled : Slot → Bool
  | some id => id != 0
  | none => false

/-- The bench of a team. -/
structure Bench where
  goalkeeper : Slot
  outfield : List Slot

/-- The state variable `team`: the selected player IDs by position. -/
structure Team where
  goalkeeper : Slot
  defenders : List Slot
  midfielders : List Slot
  forwards : List Slot
  bench : Bench

namespace teamStats

/-- The list `startingEleven` (also `startingPlayers`) of `teamStats`:
`[team.goalkeeper, ...team.defenders.filter(Boolean),
...team.midfielders.filter(Boolean), ...team.forwards.filter(Boolean)]
.filter(Boolean)`. -/
def startingEleven (team : Team) : List Slot :=
  (team.goalkeeper ::
    (team.defenders.filter Slot.filled ++ team.midfielders.filter Slot.filled ++
      team.forwards.filter Slot.filled)).filter Slot.filled

/-- The list `benchPlayers` of `teamStats`:
`[team.bench.goalkeeper, ...team.bench.outfield.filter(Boolean)].filter(Boolean)`. -/
def benchPlayers (team : Team) : List Slot :=
  (team.bench.goalkeeper :: team.bench.outfield.filter Slot.filled).filter Slot.filled

/-- The list `allSelectedPlayers` of `teamStats`. -/
def allSelectedPlayers (team : Team) : List Slot :=
  (team.goalkeeper ::
    (team.defenders.filter Slot.filled ++ team.midfielders.filter Slot.filled ++
      team.forwards.filter Slot.filled ++
      team.bench.goalkeeper :: team.bench.outfield.filter Slot.filled)).filter Slot.filled

/-- The field `totalPlayers` of `teamStats`. -/
def totalPlayers (team : Team) : Nat := (allSelectedPlayers team).length

/-- The field `isValid` of `teamStats`, as a truth value: the chain
`startingEleven.length === 11 && benchPlayers.length === 4 && team.goalkeeper &&
team.bench.goalkeeper && defCount === formation.defenders && midCount ===
formation.midfielders && fwdCount === formation.forwards`, evaluated left to
right. With a key that is not in the table `formation` is `undefined`, and
reading `formation.defenders` throws (`none`). -/
def isValid (team : Team) (selectedFormation : String) : Option Bool :=
  if (startingEleven team).length = 11 ∧ (benchPlayers team).length = 4 ∧
      team.goalkeeper.filled = true ∧ team.bench.goalkeeper.filled = true then
    match formations.lookup selectedFormation with
    | some formation =>
      some ((team.defenders.filter Slot.filled).length == formation.defenders &&
        (team.midfielders.filter Slot.filled).length == formation.midfielders &&
        (team.forwards.filter Slot.filled).length == formation.forwards)
    | none => none
  else some false

end teamStats

/-! ## Live points, `src/app/live-points/page.js` -/

/-- A player element of the bootstrap data, with the fields the live-points,
gems and planner pages read. -/
structure Element where
  id : Nat
  team : Nat
  element_type : ℤ
  status : String
  chance_of_playing_next_round : Option JSNumber
  ep_next : Option String
  form : String

/-- The `stats` of a live element: integer counters; `bonus` may be missing. -/
structure LiveStats where
  minutes : ℤ
  goals_scored : ℤ
  assists : ℤ
  clean_sheets : ℤ
  bonus : Option ℤ
  penalties_saved : ℤ
  penalties_missed : ℤ
  own_goals : ℤ
  yellow_cards : ℤ
  red_cards : ℤ

/-- An element of the live data; its `stats` may be missing. -/
structure LiveElement where
  id : Nat
  stats : Option LiveStats

/-- A pick of the manager's team. -/
structure Pick where
  element : Nat
  multiplier : ℤ
  is_captain : Bool

/-- An entry of `playerStats`: the player's fields with `liveStats`, `points`,
`multiplier`, `totalPoints` and `isPlaying` added. -/
structure PlayerStat where
  player : Element
  liveStats : LiveStats
  points : ℤ
  multiplier : ℤ
  totalPoints : ℤ
  isPlaying : Bool

/-- What `calculateLivePoints` returns when it does not return `null`. -/
structure LivePoints where
  totalPoints : ℤ
  playerStats : List PlayerStat

namespace calculateLivePoints

/-- The value of `points` after the statements from `let points = 0` to the
red cards, for one player and its live stats. -/
def basePoints (player : Element) (liveStats : LiveStats) : ℤ :=
  let p₀ : ℤ := 0
  let p₁ := if liveStats.minutes > 0 then p₀ + (if player.element_type ≤ 2 then 1 else 2) else p₀
  let p₂ := p₁ + liveStats.goals_scored *
    (if player.element_type = 4 then 4 else if player.element_type = 3 then 5 else 6)
  let p₃ := p₂ + liveStats.assists * 3
  let p₄ :=
    if liveStats.clean_sheets > 0 then
      p₃ + (if player.element_type ≤ 2 then 4 else if player.element_type = 3 then 1 else 0)
    else p₃
  let p₅ := p₄ + liveStats.bonus.getD 0
  let p₆ := p₅ + liveStats.penalties_saved * 5
  let p₇ := p₆ + liveStats.penalties_missed * -2
  let p₈ := p₇ + liveStats.own_goals * -2
  let p₉ := p₈ + liveStats.yellow_cards * -1
  p₉ + liveStats.red_cards * -3

/-- The lookups at the head of the `forEach` callback: the player and the live
stats of a pick, when both are found (`if (player && liveStats)`). -/
def lookup (elements : List Element) (live : List LiveElement) (pick : Pick) :
    Option (Element × LiveStats) :=
  match elements.find? (fun p => p.id == pick.element),
    (live.find? (fun e => e.id == pick.element)).bind LiveElement.stats with
  | some player, some liveStats => some (player, liveStats)
  | _, _ => none

/-- The `forEach` callback: the variables `totalPoints` and `playerStats`
after one pick. -/
def visit (elements : List Element) (live : List LiveElement) (acc : LivePoints) (pick : Pick) :
    LivePoints :=
  match lookup elements live pick with
  | some (player, liveStats) =>
    let points := basePoints player liveStats
    let multiplier := if pick.is_captain then 2 else pick.multiplier
    let playerPoints := points * multiplier
    { totalPoints := if pick.multiplier > 0 then acc.totalPoints + playerPoints
        else acc.totalPoints,
      playerStats := acc.playerStats ++
        [{ player := player, liveStats := liveStats, points := points,
           multiplier := multiplier, totalPoints := playerPoints,
           isPlaying := decide (pick.multiplier > 0) }] }
  | none => acc

end calculateLivePoints

/-- The function `calculateLivePoints`: `null` while one of `currentPicks`,
`liveData`, `fplData` is missing, otherwise the totals after visiting
`currentPicks.picks` in order. The arguments are `currentPicks.picks`,
`liveData.elements` and `fplData.elements`. -/
def calculateLivePoints (picks : Option (List Pick)) (live : Option (List LiveElement))
    (elements : Option (List Element)) : Option LivePoints :=
  match picks, live, elements with
  | some ps, some ls, some es =>
    some (ps.foldl (calculateLivePoints.visit es ls) { totalPoints := 0, playerStats := [] })
  | _, _, _ => none

/-- The total as the specification words it: the sum, over the picks whose
player and live stats are found and whose multiplier is greater than 0, of the
base points times the effective multiplier, which is 2 for the captain and the
pick's own multiplier otherwise. -/
def livePointsSum (elements : List Element) (live : List LiveElement) (picks : List Pick) : ℤ :=
  (((picks.filterMap fun pick =>
        (calculateLivePoints.lookup elements live pick).map fun found => (pick, found)).filter
      fun x => decide (x.1.multiplier > 0)).map
    fun x => calculateLivePoints.basePoints x.2.1 x.2.2 *
      (if x.1.is_captain then 2 else x.1.multiplier)).sum

/-- The sum of the `totalPoints` fields of the entries with `isPlaying` true. -/
def playingSum (stats : List PlayerStat) : ℤ :=
  ((stats.filter fun e => e.isPlaying).map fun e => e.totalPoints).sum

/-! ## Expected points of the planner and the gems captain list -/

/-- The operator `x + y` on Number values. -/
def JSNumber.add : JSNumber → JSNumber → JSNumber
  | .fin a, .fin b => roundSigned (a + b)
  | .fin _, .posInf => .posInf
  | .fin _, .negInf => .negInf
  | .posInf, .fin _ => .posInf
  | .posInf, .posInf => .posInf
  | .negInf, .fin _ => .negInf
  | .negInf, .negInf => .negInf
  | _, _ => .nan

/-- The operator `x * y` on Number values. -/
def JSNumber.mul : JSNumber → JSNumber → JSNumber
  | .fin a, .fin b => roundSigned (a * b)
  | .fin a, .posInf => if a = 0 then .nan else if 0 < a then .posInf else .negInf
  | .fin a, .negInf => if a = 0 then .nan else if 0 < a then .negInf else .posInf
  | .posInf, .fin b => if b = 0 then .nan else if 0 < b then .posInf else .negInf
  | .negInf, .fin b => if b = 0 then .nan else if 0 < b then .negInf else .posInf
  | .posInf, .posInf => .posInf
  | .posInf, .negInf => .negInf
  | .negInf, .posInf => .negInf
  | .negInf, .negInf => .posInf
  | _, _ => .nan

/-- The expression `x || 0` on a Number value: NaN and 0 are falsy. -/
def JSNumber.orZero : JSNumber → JSNumber
  | .nan => .fin 0
  | x => x

/-- The sum of a list of Number values, added from the left starting at 0, as
`reduce((sum, x) => sum + x, 0)` computes it. -/
def sumNumbers (xs : List JSNumber) : JSNumber :=
  xs.foldl JSNumber.add (.fin 0)

namespace teamStats

/-- The expression `player?.ep_next ? parseFloat(player.ep_next) : 0` for
`player = fplData.elements.find(p => p.id === playerId)`: 0 when the player is
not found or its `ep_next` is `null` or empty. -/
def playerEp (elements : List Element) (playerId : Slot) : JSNumber :=
  match elements.find? (fun p => some p.id == playerId) with
  | some player =>
    match player.ep_next with
    | some ep => if jsNot ep then .fin 0 else parseFloat ep
    | none => .fin 0
  | none => .fin 0

/-- The callback of the first `reduce` of `expectedPoints`: the player's
expected points, tripled or doubled for the captain, added to the sum. -/
def addStarter (elements : List Element) (captain : Slot) (activeChip : Option String)
    (sum : JSNumber) (playerId : Slot) : JSNumber :=
  let playerPoints := playerEp elements playerId
  let playerPoints :=
    if playerId = captain then
      if activeChip = some "triple-captain" then playerPoints.mul (.fin 3)
      else playerPoints.mul (.fin 2)
    else playerPoints
  sum.add playerPoints

/-- The variable `expectedPoints` before it is formatted: the `reduce` over the
starting players, plus the `reduce` over the bench players when the active
chip is `bench-boost`. -/
def expectedPointsValue (team : Team) (elements : List Element) (captain : Slot)
    (activeChip : Option String) : JSNumber :=
  let expectedPoints :=
    (startingEleven team).foldl (addStarter elements captain activeChip) (.fin 0)
  if activeChip = some "bench-boost" then
    expectedPoints.add
      ((benchPlayers team).foldl (fun sum playerId => sum.add (playerEp elements playerId))
        (.fin 0))
  else expectedPoints

/-- The field `expectedPoints` of `teamStats` when the data is loaded:
`expectedPoints.toFixed(1)`. The method `Number.prototype.toFixed` is the
parameter `toFixed`. -/
def expectedPoints (toFixed : JSNumber → Nat → String) (team : Team) (elements : List Element)
    (captain : Slot) (activeChip : Option String) : String :=
  toFixed (expectedPointsValue team elements captain activeChip) 1

end teamStats

/-- The sum as the specification words it: the expected points of the starting
players, the captain's counted twice, or three times with the triple-captain
chip, plus those of the bench players when and only when the bench-boost chip
is active. -/
def expectedPointsSum (team : Team) (elements : List Element) (captain : Slot)
    (activeChip : Option String) : JSNumber :=
  let starters := sumNumbers ((teamStats.startingEleven team).map fun playerId =>
    if playerId = captain then
      (teamStats.playerEp elements playerId).mul
        (if activeChip = some "triple-captain" then .fin 3 else .fin 2)
    else teamStats.playerEp elements playerId)
  if activeChip = some "bench-boost" then
    starters.add (sumNumbers ((teamStats.benchPlayers team).map (teamStats.playerEp elements)))
  else starters

/-- A fixture, with the fields `getNextOpponent` reads for the difficulty. -/
structure Fixture where
  team_h : Nat
  team_a : Nat
  finished : Bool
  team_h_difficulty : ℤ
  team_a_difficulty : ℤ

/-- What `getNextOpponent` returns, as far as the scores read it: `isHome` and
`difficulty` (the opponent's short name and the kickoff time are for display). -/
structure NextOpponent where
  isHome : Bool
  difficulty : ℤ

namespace Gems

/-- The callback `getNextOpponent(playerId)` of the gems page; `none` is
`null`. -/
def getNextOpponent (elements : Option (List Element)) (fixtures : List Fixture)
    (playerId : Nat) : Option NextOpponent :=
  match elements with
  | none => none
  | some es =>
    if fixtures.length = 0 then none
    else
      match es.find? (fun p => p.id == playerId) with
      | none => none
      | some player =>
        match fixtures.find? (fun fixture =>
            (fixture.team_h == player.team || fixture.team_a == player.team) &&
              !fixture.finished) with
        | none => none
        | some upcomingFixture =>
          let isHome := upcomingFixture.team_h == player.team
          some { isHome := isHome,
                 difficulty := if isHome then upcomingFixture.team_h_difficulty
                   else upcomingFixture.team_a_difficulty }

/-- The expression `nextOpponent?.difficulty || 3`. -/
def fdrOf (nextOpponent : Option NextOpponent) : ℤ :=
  match nextOpponent with
  | some o => if o.difficulty = 0 then 3 else o.difficulty
  | none => 3

/-- The weighted sum `(epNext * 0.5) + (form * 0.3) + (fdrScore * 0.2)` with
`fdrScore = 5 - fdr`, computed on Number values; the literals are the Number
values of 0.5, 0.3 and 0.2. -/
def weightedScore (epNext form : JSNumber) (fdr : ℤ) : JSNumber :=
  ((epNext.mul (roundMV (1 / 2))).add (form.mul (roundMV (3 / 10)))).add
    ((JSNumber.sub (.fin 5) (.fin fdr)).mul (roundMV (1 / 5)))

/-- The function `calculateCaptainScore(player)`. -/
def calculateCaptainScore (elements : Option (List Element)) (fixtures : List Fixture)
    (player : Element) : JSNumber :=
  match player.ep_next with
  | none => .fin 0
  | some ep =>
    if jsNot ep then .fin 0
    else
      weightedScore (parseFloat ep).orZero (parseFloat player.form).orZero
        (fdrOf (getNextOpponent elements fixtures player.id))

/-- The filter of `availablePlayers` in `gemPicks`:
`status.available && player.ep_next && player.ep_next > 0`. -/
def isAvailable (player : Element) : Bool :=
  (getPlayerStatus player.status player.chance_of_playing_next_round).available &&
    match player.ep_next with
    | some ep => !jsNot ep && jsGt ep 0
    | none => false

/-- The players the captain list is drawn from, each with its score:
`availablePlayers.filter(player => player.element_type >= 3).map(player =>
({ ...player, score: calculateCaptainScore(player) }))`. -/
def captainCandidates (elements : List Element) (fixtures : List Fixture) :
    List (Element × JSNumber) :=
  ((elements.filter isAvailable).filter fun player => decide (player.element_type ≥ 3)).map
    fun player => (player, calculateCaptainScore (some elements) fixtures player)

/-- The list `captains` of `gemPicks`: empty while the data or the fixtures
are missing, otherwise the candidates sorted by `(a, b) => b.score - a.score`
and cut to the first five. -/
def captains (elements : Option (List Element)) (fixtures : List Fixture) :
    List (Element × JSNumber) :=
  match elements with
  | none => []
  | some es =>
    if fixtures.length = 0 then []
    else
      (sortWith (fun a b => JSNumber.sub b.2 a.2) (captainCandidates es fixtures)).take 5

end Gems

/-- The candidates the captain list leaves out: the sorted candidates after
the first five. -/
def Gems.leftOut (elements : List Element) (fixtures : List Fixture) :
    List (Element × JSNumber) :=
  (sortWith (fun a b => JSNumber.sub b.2 a.2) (Gems.captainCandidates elements fixtures)).drop 5

/-- A Number value as binary64 has it: a finite value is an integer multiple of
`2 ^ (-1074)`, the least positive value. -/
def JSNumber.OnGrid : JSNumber → Prop
  | .fin q => ∃ n : ℤ, q = (n : ℚ) * (2 : ℚ) ^ (-1074 : ℤ)
  | _ => True

/-! ## Facts about the conversion of strings to numbers -/

/-- With enough fuel the halving count is the position of the leading bit. -/
theorem log2Fuel_spec (fuel n : Nat) (hn : 0 < n) (hf : n ≤ fuel) :
    2 ^ log2Fuel fuel n ≤ n ∧ n < 2 ^ (log2Fuel fuel n + 1) := by
  induction fuel generalizing n with
  | zero => omega
  | succ fuel ih =>
    unfold log2Fuel
    split
    · have := ih (n / 2) (by omega) (by omega)
      rw [Nat.pow_succ, Nat.pow_succ]
      rw [Nat.pow_succ] at this
      omega
    · have h1 : n = 1 := by omega
      subst h1
      simp

/-- The fuel `natLog2` uses is enough: `2 ^ natLog2 n ≤ n < 2 ^ (natLog2 n + 1)`. -/
theorem natLog2_spec (n : Nat) (hn : 0 < n) :
    2 ^ natLog2 n ≤ n ∧ n < 2 ^ (natLog2 n + 1) :=
  log2Fuel_spec n n hn (Nat.le_refl n)

/-- Rounding never produces NaN. -/
theorem roundMV_ne_nan (q : ℚ) : roundMV q ≠ .nan := by
  unfold roundMV
  split
  · simp
  · simp only
    split <;> simp

theorem digit_bounds (c : Char) (h : '0' ≤ c ∧ c ≤ '9') : 48 ≤ c.toNat ∧ c.toNat ≤ 57 := by
  obtain ⟨h1, h2⟩ := h
  rw [Char.le_def, UInt32.le_def] at h1 h2
  exact ⟨h1, h2⟩

theorem digit_ne (c d : Char) (h : '0' ≤ c ∧ c ≤ '9') (hd : d.toNat < 48 ∨ 57 < d.toNat) :
    c ≠ d := by
  intro hcd
  have := digit_bounds c h
  rw [hcd] at this
  omega

theorem digit_not_white (c : Char) (h : '0' ≤ c ∧ c ≤ '9') : isStrWhiteSpace c = false := by
  have := digit_bounds c h
  simp only [isStrWhiteSpace, Bool.or_eq_false_iff, beq_eq_false_iff_ne, ne_eq,
    Bool.and_eq_false_imp, decide_eq_true_eq, decide_eq_false_iff_not]
  omega

theorem dropWhile_none (p : Char → Bool) (l : List Char) (h : ∀ c ∈ l, p c = false) :
    l.dropWhile p = l := by
  cases l with
  | nil => rfl
  | cons c t => simp [List.dropWhile, h c (List.mem_cons_self c t)]

theorem trimWhiteSpace_digits (cs : List Char) (h : ∀ c ∈ cs, '0' ≤ c ∧ c ≤ '9') :
    trimWhiteSpace cs = cs := by
  unfold trimWhiteSpace
  rw [dropWhile_none _ cs (fun c hc => digit_not_white c (h c hc)),
    dropWhile_none _ cs.reverse
      (fun c hc => digit_not_white c (h c (List.mem_reverse.1 hc))),
    List.reverse_reverse]

theorem spanDigits_digits (cs : List Char) (h : ∀ c ∈ cs, '0' ≤ c ∧ c ≤ '9') :
    spanDigits 10 cs = (cs.map (fun c => c.toNat - 48), []) := by
  induction cs with
  | nil => rfl
  | cons c t ih =>
    have hc := h c (List.mem_cons_self c t)
    have hb := digit_bounds c hc
    have hd : digitOfBase 10 c = some (c.toNat - 48) := by
      unfold digitOfBase hexDigit
      rw [if_pos hc]
      simp only
      rw [if_pos (by omega)]
    unfold spanDigits
    rw [hd]
    simp only
    rw [ih (fun x hx => h x (List.mem_cons_of_mem c hx))]
    rfl

theorem parseNonDecimal_digits (cs : List Char) (h : ∀ c ∈ cs, '0' ≤ c ∧ c ≤ '9') :
    parseNonDecimal cs = none := by
  unfold parseNonDecimal
  split
  · rename_i k rest
    have hk : '0' ≤ k ∧ k ≤ '9' := h k (by simp)
    have e1 := digit_ne k 'x' hk (by decide)
    have e2 := digit_ne k 'X' hk (by decide)
    have e3 := digit_ne k 'o' hk (by decide)
    have e4 := digit_ne k 'O' hk (by decide)
    have e5 := digit_ne k 'b' hk (by decide)
    have e6 := digit_ne k 'B' hk (by decide)
    simp [e1, e2, e3, e4, e5, e6]
  · rfl

theorem parseDecimal_digits (c : Char) (t : List Char)
    (h : ∀ x ∈ c :: t, '0' ≤ x ∧ x ≤ '9') : parseDecimal (c :: t) ≠ .nan := by
  have hc := h c (List.mem_cons_self c t)
  have e1 := digit_ne c '+' hc (by decide)
  have e2 := digit_ne c '-' hc (by decide)
  have e3 := digit_ne c 'I' hc (by decide)
  have hs : (match c :: t with
      | '+' :: u => (false, u)
      | '-' :: u => (true, u)
      | _ => (false, c :: t)) = (false, c :: t) := by
    split
    · rename_i u heq; simp at heq; exact absurd heq.1 e1
    · rename_i u heq; simp at heq; exact absurd heq.1 e2
    · rfl
  have hp : ∃ q, parseUnsignedDecimal (c :: t) = some q := by
    unfold parseUnsignedDecimal
    rw [spanDigits_digits (c :: t) h]
    simp
  obtain ⟨q, hq⟩ := hp
  unfold parseDecimal
  rw [hs]
  simp only [Bool.false_eq_true, if_false]
  rw [if_neg (by simp [String.toList]; intro hci; exact absurd hci e3)]
  rw [hq]
  exact roundMV_ne_nan q

/-- A non-empty string of decimal digits, such as a positive integer written
in decimal, passes the ID check `!id || isNaN(id)` of the handlers. -/
theorem digit_string_passes_id_check (s : String) (hne : s ≠ "")
    (hd : ∀ c ∈ s.toList, '0' ≤ c ∧ c ≤ '9') : (jsNot s || isNaN s) = false := by
  have hl : s.toList ≠ [] := by
    intro h
    apply hne
    cases s
    simp_all [String.toList]
  have h1 : jsNot s = false := by
    cases hs : jsNot s
    · rfl
    · exact absurd ((String.isEmpty_iff s).1 hs) hne
  have h2 : StringToNumber s ≠ .nan := by
    unfold StringToNumber
    simp only
    rw [trimWhiteSpace_digits s.toList hd, if_neg hl, parseNonDecimal_digits s.toList hd]
    simp only
    cases hcs : s.toList with
    | nil => exact absurd hcs hl
    | cons c t => exact parseDecimal_digits c t (by rw [← hcs]; exact hd)
  have h3 : isNaN s = false := by
    unfold isNaN
    cases h : StringToNumber s <;> simp_all [JSNumber.isNaN]
  simp [h1, h3]


/-- The exponent `floorLog2` picks is the binary exponent of `q`. -/
theorem floorLog2_spec (q : ℚ) (hq : 0 < q) :
    (2 : ℚ) ^ floorLog2 q ≤ q ∧ q < (2 : ℚ) ^ (floorLog2 q + 1) := by
  have hnum : 0 < q.num := Rat.num_pos.2 hq
  have hn : 0 < q.num.natAbs := Int.natAbs_pos.2 (ne_of_gt hnum)
  have hd : 0 < q.den := q.den_pos
  obtain ⟨ha1, ha2⟩ := natLog2_spec q.num.natAbs hn
  obtain ⟨hb1, hb2⟩ := natLog2_spec q.den hd
  have hqv : q = (q.num.natAbs : ℚ) / (q.den : ℚ) := by
    rw [Nat.cast_natAbs, abs_of_pos (by exact_mod_cast hnum)]
    exact_mod_cast (Rat.num_div_den q).symm
  have hdq : (0 : ℚ) < (q.den : ℚ) := by exact_mod_cast hd
  have ha1q : (2 : ℚ) ^ (natLog2 q.num.natAbs) ≤ (q.num.natAbs : ℚ) := by exact_mod_cast ha1
  have ha2q : (q.num.natAbs : ℚ) < (2 : ℚ) ^ (natLog2 q.num.natAbs + 1) := by exact_mod_cast ha2
  have hb1q : (2 : ℚ) ^ (natLog2 q.den) ≤ (q.den : ℚ) := by exact_mod_cast hb1
  have hb2q : (q.den : ℚ) < (2 : ℚ) ^ (natLog2 q.den + 1) := by exact_mod_cast hb2
  have h2 : (2 : ℚ) ≠ 0 := by norm_num
  unfold floorLog2
  simp only
  generalize natLog2 q.num.natAbs = A at *
  generalize natLog2 q.den = B at *
  have hpb : (0 : ℚ) < (2 : ℚ) ^ B := by positivity
  have hpb1 : (0 : ℚ) < (2 : ℚ) ^ (B + 1) := by positivity
  split
  · rename_i hle
    refine ⟨hle, ?_⟩
    have e : ((A : ℤ) - (B : ℤ) + 1) = ((A + 1 : ℕ) : ℤ) - ((B : ℕ) : ℤ) := by push_cast; ring
    have key : (q.num.natAbs : ℚ) / (q.den : ℚ) < (2 : ℚ) ^ (A + 1) / (2 : ℚ) ^ B := by
      rw [div_lt_div_iff₀ hdq hpb]
      calc (q.num.natAbs : ℚ) * 2 ^ B
          < 2 ^ (A + 1) * 2 ^ B := mul_lt_mul_of_pos_right ha2q hpb
        _ ≤ 2 ^ (A + 1) * (q.den : ℚ) := mul_le_mul_of_nonneg_left hb1q (by positivity)
    rw [e, zpow_sub₀ h2, zpow_natCast, zpow_natCast]
    rw [← hqv] at key
    exact key
  · rename_i hlt
    rw [not_le] at hlt
    constructor
    · have e : ((A : ℤ) - (B : ℤ) - 1) = ((A : ℕ) : ℤ) - ((B + 1 : ℕ) : ℤ) := by push_cast; ring
      have key : (2 : ℚ) ^ A / (2 : ℚ) ^ (B + 1) ≤ (q.num.natAbs : ℚ) / (q.den : ℚ) := by
        rw [div_le_div_iff₀ hpb1 hdq]
        calc (2 : ℚ) ^ A * (q.den : ℚ)
            ≤ (q.num.natAbs : ℚ) * (q.den : ℚ) := mul_le_mul_of_nonneg_right ha1q (le_of_lt hdq)
          _ ≤ (q.num.natAbs : ℚ) * 2 ^ (B + 1) :=
              mul_le_mul_of_nonneg_left (le_of_lt hb2q) (by positivity)
      rw [e, zpow_sub₀ h2, zpow_natCast, zpow_natCast]
      rw [← hqv] at key
      exact key
    · have e : ((A : ℤ) - (B : ℤ) - 1 + 1) = ((A : ℤ) - (B : ℤ)) := by ring
      rw [e]
      exact hlt

/-- The integer `roundHalfEven` picks is a nearest one. -/
theorem roundHalfEven_spec (q : ℚ) : |(roundHalfEven q : ℚ) - q| ≤ 1 / 2 := by
  have h1 : (⌊q⌋ : ℚ) ≤ q := Int.floor_le q
  have h2 : q < (⌊q⌋ : ℚ) + 1 := Int.lt_floor_add_one q
  unfold roundHalfEven
  simp only
  split
  · rw [abs_le]; constructor <;> linarith
  · split
    · rw [abs_le]; push_cast; constructor <;> linarith
    · have h3 : q - (⌊q⌋ : ℚ) = 1 / 2 := by
        rename_i ha hb
        exact le_antisymm (not_lt.1 hb) (not_lt.1 ha)
      split
      · rw [abs_le]; constructor <;> linarith
      · rw [abs_le]; push_cast; constructor <;> linarith

/-! ## Basic facts about the shared frame -/

theorem jsNot_eq_true_iff (s : String) : jsNot s = true ↔ s = "" := by
  unfold jsNot
  exact String.isEmpty_iff s

theorem jsNot_eq_false_iff (s : String) : jsNot s = false ↔ s ≠ "" := by
  have h := jsNot_eq_true_iff s
  cases hs : jsNot s <;> simp [hs] at h ⊢ <;> exact h

theorem isNaN_eq_true_iff (s : String) : isNaN s = true ↔ StringToNumber s = .nan := by
  unfold isNaN
  cases StringToNumber s <;> simp [JSNumber.isNaN]

theorem isNaN_eq_false_iff (s : String) : isNaN s = false ↔ StringToNumber s ≠ .nan := by
  have h := isNaN_eq_true_iff s
  cases hs : isNaN s <;> simp [hs] at h ⊢ <;> exact h

@[simp] theorem catchAll_calls (a : Attempt) (msg : String) : (catchAll a msg).calls = a.calls := by
  unfold catchAll
  cases a.outcome <;> rfl

@[simp] theorem relay_calls (up : Upstream) (c : FetchCall) (cc : String) :
    (relay up c cc).calls = [c] := by
  unfold relay
  split
  · rfl
  · split
    · rfl
    · split <;> rfl

@[simp] theorem relayOr404_calls (up : Upstream) (c : FetchCall) (nf cc : String) :
    (relayOr404 up c nf cc).calls = [c] := by
  unfold relayOr404
  split
  · rfl
  · split
    · split <;> rfl
    · split <;> rfl

@[simp] theorem catchAll_reject (m msg : String) :
    catchAll (reject m) msg =
      { response := { status := 400, body := errorBody m, headers := [] }, calls := [] } := rfl

/-- A gameweek that passes the range check has a finite numeric value between
1 and 38. -/
theorem gameweek_in_range (gw : String) (h1 : isNaN gw = false) (h2 : jsLt gw 1 = false)
    (h3 : jsGt gw 38 = false) : ∃ q : ℚ, StringToNumber gw = .fin q ∧ 1 ≤ q ∧ q ≤ 38 := by
  unfold isNaN at h1
  unfold jsLt at h2
  unfold jsGt at h3
  cases h : StringToNumber gw with
  | nan => rw [h] at h1; simp [JSNumber.isNaN] at h1
  | posInf => rw [h] at h3; simp [JSNumber.lt] at h3
  | negInf => rw [h] at h2; simp [JSNumber.lt] at h2
  | fin q =>
    rw [h] at h2 h3
    simp only [JSNumber.lt, decide_eq_false_iff_not, not_lt] at h2 h3
    exact ⟨q, rfl, h2, h3⟩

theorem relay_success (up : Upstream) (c : FetchCall) (cc msg : String) (status : Nat)
    (d : Json) (hu : up c = .response status (some d)) (hs : statusOk status = true) :
    catchAll (relay up c cc) msg =
      { response := { status := 200, body := d, headers := [("Cache-Control", cc)] },
        calls := [c] } := by
  simp [relay, hu, hs, catchAll, NextResponse.jsonHeaders]

theorem relayOr404_success (up : Upstream) (c : FetchCall) (nf cc msg : String) (status : Nat)
    (d : Json) (hu : up c = .response status (some d)) (hs : statusOk status = true) :
    catchAll (relayOr404 up c nf cc) msg =
      { response := { status := 200, body := d, headers := [("Cache-Control", cc)] },
        calls := [c] } := by
  simp [relayOr404, hu, hs, catchAll, NextResponse.jsonHeaders]

theorem relayOr404_not_found (up : Upstream) (c : FetchCall) (nf cc msg : String)
    (body : Option Json) (hu : up c = .response 404 body) :
    catchAll (relayOr404 up c nf cc) msg =
      { response := { status := 404, body := errorBody nf, headers := [] }, calls := [c] } := by
  simp [relayOr404, hu, statusOk, catchAll, NextResponse.jsonStatus]

/-- A handler without a 404 branch answers every upstream failure with its
generic 500 envelope: a rejected fetch, a status outside 200..299 and a body
that does not parse. -/
theorem relay_failure (up : Upstream) (c : FetchCall) (cc msg : String)
    (h : up c = .rejected ∨ (∃ status body, up c = .response status body ∧
      statusOk status = false) ∨ ∃ status, up c = .response status none) :
    catchAll (relay up c cc) msg =
      { response := { status := 500, body := errorBody msg, headers := [] }, calls := [c] } := by
  rcases h with h | ⟨status, body, h, hs⟩ | ⟨status, h⟩
  · simp [relay, h, catchAll, NextResponse.jsonStatus]
  · simp [relay, h, hs, catchAll, NextResponse.jsonStatus]
  · cases hs : statusOk status <;> simp [relay, h, hs, catchAll, NextResponse.jsonStatus]

/-- A handler with a 404 branch answers every other upstream failure with its
generic 500 envelope. -/
theorem relayOr404_failure (up : Upstream) (c : FetchCall) (nf cc msg : String)
    (h : up c = .rejected ∨ (∃ status body, up c = .response status body ∧
      statusOk status = false ∧ status ≠ 404) ∨
      ∃ status, up c = .response status none ∧ status ≠ 404) :
    catchAll (relayOr404 up c nf cc) msg =
      { response := { status := 500, body := errorBody msg, headers := [] }, calls := [c] } := by
  rcases h with h | ⟨status, body, h, hs, h404⟩ | ⟨status, h, h404⟩
  · simp [relayOr404, h, catchAll, NextResponse.jsonStatus]
  · simp [relayOr404, h, hs, h404, catchAll, NextResponse.jsonStatus]
  · cases hs : statusOk status <;>
      simp [relayOr404, h, hs, h404, catchAll, NextResponse.jsonStatus]

/-- The three ways a run of a handler without a 404 branch can end once the
call is issued. -/
theorem relay_cases (up : Upstream) (c : FetchCall) (cc msg : String) :
    (∃ d, catchAll (relay up c cc) msg =
        { response := { status := 200, body := d, headers := [("Cache-Control", cc)] },
          calls := [c] }) ∨
      catchAll (relay up c cc) msg =
        { response := { status := 500, body := errorBody msg, headers := [] }, calls := [c] } := by
  cases hu : up c with
  | rejected => exact Or.inr (relay_failure up c cc msg (Or.inl hu))
  | response status body =>
    cases hs : statusOk status with
    | false => exact Or.inr (relay_failure up c cc msg (Or.inr (Or.inl ⟨status, body, hu, hs⟩)))
    | true =>
      cases body with
      | none => exact Or.inr (relay_failure up c cc msg (Or.inr (Or.inr ⟨status, hu⟩)))
      | some d => exact Or.inl ⟨d, relay_success up c cc msg status d hu hs⟩

/-- The ways a run of a handler with a 404 branch can end once the call is
issued. -/
theorem relayOr404_cases (up : Upstream) (c : FetchCall) (nf cc msg : String) :
    (∃ d, catchAll (relayOr404 up c nf cc) msg =
        { response := { status := 200, body := d, headers := [("Cache-Control", cc)] },
          calls := [c] }) ∨
      catchAll (relayOr404 up c nf cc) msg =
        { response := { status := 404, body := errorBody nf, headers := [] }, calls := [c] } ∨
      catchAll (relayOr404 up c nf cc) msg =
        { response := { status := 500, body := errorBody msg, headers := [] }, calls := [c] } := by
  cases hu : up c with
  | rejected => exact Or.inr (Or.inr (relayOr404_failure up c nf cc msg (Or.inl hu)))
  | response status body =>
    by_cases h404 : status = 404
    · subst h404
      exact Or.inr (Or.inl (relayOr404_not_found up c nf cc msg body hu))
    · cases hs : statusOk status with
      | false =>
        exact Or.inr (Or.inr (relayOr404_failure up c nf cc msg
          (Or.inr (Or.inl ⟨status, body, hu, hs, h404⟩))))
      | true =>
        cases body with
        | none =>
          exact Or.inr (Or.inr (relayOr404_failure up c nf cc msg
            (Or.inr (Or.inr ⟨status, hu, h404⟩))))
        | some d => exact Or.inl ⟨d, relayOr404_success up c nf cc msg status d hu hs⟩

/-! ## Validation (C1 to C3) -/

/-- C1. A gameweek path parameter that is empty, non-numeric, or whose numeric
value is below 1 or above 38 makes the live-gameweek handler return status 400
with body `{error: "Valid gameweek (1-38) is required"}` without any upstream
request; the helper `validateGameweek` builds the same response. -/
theorem live_invalid_gameweek_rejected (gameweek : String) (upstream : Upstream)
    (h : gameweek = "" ∨ StringToNumber gameweek = .nan ∨
      (StringToNumber gameweek).lt (.fin 1) = true ∨
      JSNumber.lt (.fin 38) (StringToNumber gameweek) = true) :
    Live.GET gameweek upstream =
        { response :=
            { status := 400, body := errorBody "Valid gameweek (1-38) is required",
              headers := [] },
          calls := [] } ∧
      validateGameweek gameweek =
        some { status := 400, body := errorBody "Valid gameweek (1-38) is required",
               headers := [] } := by
  have hg : (jsNot gameweek || isNaN gameweek || jsLt gameweek 1 || jsGt gameweek 38) = true := by
    rcases h with h | h | h | h
    · simp [(jsNot_eq_true_iff gameweek).2 h]
    · simp [(isNaN_eq_true_iff gameweek).2 h]
    · simp [jsLt, h]
    · simp [jsGt, h]
  constructor
  · unfold Live.GET
    rw [if_pos hg]
    rfl
  · unfold validateGameweek
    rw [if_pos hg]
    rfl

/-- The scenario of C1: the gameweek `"0"` has the numeric value 0, below 1, and
is answered with 400 although the upstream would have succeeded. -/
theorem live_invalid_gameweek_rejected_witness :
    (StringToNumber "0").lt (.fin 1) = true ∧
      Live.GET "0" (fun _ => .response 200 (some .null)) =
        { response :=
            { status := 400, body := errorBody "Valid gameweek (1-38) is required",
              headers := [] },
          calls := [] } :=
  ⟨by decide!,
    (live_invalid_gameweek_rejected "0" (fun _ => .response 200 (some .null))
      (Or.inr (Or.inr (Or.inl (by decide!))))).1⟩

/-- C2, as the code has it. A manager, league or player ID that is empty or
non-numeric makes its handler (manager profile, history, picks, transfers,
league standings, player summary) return status 400 without any upstream
request, whatever the other parameters are; the helper `validateId` answers
such an ID with status 400 as well. -/
theorem invalid_id_rejected (route : Route) (upstream : Upstream) (id : String)
    (hid : id ∈ route.ids) (h : id = "" ∨ StringToNumber id = .nan) :
    ((serve route upstream).response.status = 400 ∧ (serve route upstream).calls = []) ∧
      ∀ (toLowerCase : String → String) (fieldName : String),
        (validateId toLowerCase id fieldName).map NextResponse.status = some 400 := by
  have hg : (jsNot id || isNaN id) = true := by
    rcases h with h | h
    · simp [(jsNot_eq_true_iff id).2 h]
    · simp [(isNaN_eq_true_iff id).2 h]
  constructor
  · cases route <;> simp only [Route.ids, List.mem_singleton, List.not_mem_nil] at hid <;>
      subst hid
    · simp [serve, Player.GET, hg]
    · simp [serve, Manager.GET, hg]
    · simp [serve, ManagerHistory.GET, hg]
    · simp [serve, ManagerTransfers.GET, hg]
    · simp [serve, ManagerPicks.GET, hg]
    · simp [serve, League.GET, hg]
  · intro toLowerCase fieldName
    unfold validateId
    rw [if_pos hg]
    rfl

/-- The amended C2 at a concrete input: the manager ID `"abc"` is non-numeric
and the picks handler rejects it without consulting the upstream. -/
theorem invalid_id_rejected_witness :
    StringToNumber "abc" = .nan ∧
      (serve (.managerPicks "abc" "7") (fun _ => .response 200 (some .null))).response.status
        = 400 ∧
      (serve (.managerPicks "abc" "7") (fun _ => .response 200 (some .null))).calls = [] :=
  ⟨by decide!,
    (invalid_id_rejected (.managerPicks "abc" "7") (fun _ => .response 200 (some .null)) "abc"
      (by simp [Route.ids]) (Or.inr (by decide!))).1⟩

/-- C2 fails as stated: the manager IDs `"0"` and `"-5"` are numeric (0 and -5),
pass the check of the manager-profile handler and are sent upstream. -/
theorem zero_and_negative_id_reach_upstream :
    StringToNumber "0" = .fin 0 ∧ StringToNumber "-5" = .fin (-5) ∧
      (Manager.GET "0" (fun _ => .response 200 (some .null))).response.status = 200 ∧
      (Manager.GET "0" (fun _ => .response 200 (some .null))).calls.map FetchCall.url =
        ["https://fantasy.premierleague.com/api/entry/0/"] ∧
      (Manager.GET "-5" (fun _ => .response 200 (some .null))).response.status = 200 ∧
      (Manager.GET "-5" (fun _ => .response 200 (some .null))).calls.map FetchCall.url =
        ["https://fantasy.premierleague.com/api/entry/-5/"] := by
  decide!

/-- C3, as the code has it. Whenever a handler issues an upstream request, each
of its ID parameters is non-empty and numeric, and each of its gameweek
parameters is non-empty with a finite numeric value between 1 and 38. -/
theorem forwarded_parameters_checked (route : Route) (upstream : Upstream)
    (h : (serve route upstream).calls ≠ []) :
    (∀ id ∈ route.ids, id ≠ "" ∧ StringToNumber id ≠ .nan) ∧
      ∀ gw ∈ route.gameweeks,
        gw ≠ "" ∧ ∃ q : ℚ, StringToNumber gw = .fin q ∧ 1 ≤ q ∧ q ≤ 38 := by
  have idOk : ∀ id : String, (jsNot id || isNaN id) = false →
      id ≠ "" ∧ StringToNumber id ≠ .nan := by
    intro id hg
    rw [Bool.or_eq_false_iff] at hg
    exact ⟨(jsNot_eq_false_iff id).1 hg.1, (isNaN_eq_false_iff id).1 hg.2⟩
  have gwOk : ∀ gw : String,
      (jsNot gw || isNaN gw || jsLt gw 1 || jsGt gw 38) = false →
      gw ≠ "" ∧ ∃ q : ℚ, StringToNumber gw = .fin q ∧ 1 ≤ q ∧ q ≤ 38 := by
    intro gw hg
    simp only [Bool.or_eq_false_iff] at hg
    exact ⟨(jsNot_eq_false_iff gw).1 hg.1.1.1, gameweek_in_range gw hg.1.1.2 hg.1.2 hg.2⟩
  cases route with
  | bootstrapStatic => simp [Route.ids, Route.gameweeks]
  | fixtures => simp [Route.ids, Route.gameweeks]
  | eventStatus => simp [Route.ids, Route.gameweeks]
  | live gw =>
    cases hg : (jsNot gw || isNaN gw || jsLt gw 1 || jsGt gw 38)
    · simpa [Route.ids, Route.gameweeks] using gwOk gw hg
    · simp [serve, Live.GET, hg] at h
  | dreamTeam gw =>
    cases hg : (jsNot gw || isNaN gw || jsLt gw 1 || jsGt gw 38)
    · simpa [Route.ids, Route.gameweeks] using gwOk gw hg
    · simp [serve, DreamTeam.GET, hg] at h
  | player id =>
    cases hg : (jsNot id || isNaN id)
    · simpa [Route.ids, Route.gameweeks] using idOk id hg
    · simp [serve, Player.GET, hg] at h
  | manager id =>
    cases hg : (jsNot id || isNaN id)
    · simpa [Route.ids, Route.gameweeks] using idOk id hg
    · simp [serve, Manager.GET, hg] at h
  | managerHistory id =>
    cases hg : (jsNot id || isNaN id)
    · simpa [Route.ids, Route.gameweeks] using idOk id hg
    · simp [serve, ManagerHistory.GET, hg] at h
  | managerTransfers id =>
    cases hg : (jsNot id || isNaN id)
    · simpa [Route.ids, Route.gameweeks] using idOk id hg
    · simp [serve, ManagerTransfers.GET, hg] at h
  | managerPicks id gw =>
    cases hg : (jsNot id || isNaN id)
    · cases hw : (jsNot gw || isNaN gw || jsLt gw 1 || jsGt gw 38)
      · simpa [Route.ids, Route.gameweeks] using And.intro (idOk id hg) (gwOk gw hw)
      · simp [serve, ManagerPicks.GET, hg, hw] at h
    · simp [serve, ManagerPicks.GET, hg] at h
  | league sp id =>
    cases hg : (jsNot id || isNaN id)
    · simpa [Route.ids, Route.gameweeks] using idOk id hg
    · simp [serve, League.GET, hg] at h

/-- The amended C3 at a concrete input: the dream-team handler issues a request
for gameweek `"38"`, whose numeric value is 38. -/
theorem forwarded_parameters_checked_witness :
    (serve (.dreamTeam "38") (fun _ => .rejected)).calls ≠ [] ∧
      ∀ gw ∈ (Route.dreamTeam "38").gameweeks,
        gw ≠ "" ∧ ∃ q : ℚ, StringToNumber gw = .fin q ∧ 1 ≤ q ∧ q ≤ 38 :=
  ⟨by decide!,
    (forwarded_parameters_checked (.dreamTeam "38") (fun _ => .rejected) (by decide!)).2⟩

/-- C3 fails as stated: the gameweek `"1.5"` has the numeric value 3/2, which is
not an integer, passes the range check of the live-gameweek handler and reaches
the upstream call. -/
theorem fractional_gameweek_reaches_upstream :
    StringToNumber "1.5" = .fin (3 / 2) ∧
      (Live.GET "1.5" (fun _ => .response 200 (some .null))).calls.map FetchCall.url =
        ["https://fantasy.premierleague.com/api/event/1.5/live/"] ∧
      (Live.GET "1.5" (fun _ => .response 200 (some .null))).response.status = 200 := by
  decide!

/-! ## Relay and failure mapping (C4 to C7) -/

/-- C4. For every handler: when the run gets as far as its upstream call (the
parameters passed validation) and the upstream answers that call with a status
in 200..299 and a JSON body `d`, the response has status 200 and its body is
`d` itself. -/
theorem success_body_relayed (route : Route) (upstream : Upstream) (call : FetchCall)
    (status : Nat) (d : Json) (hc : (serve route upstream).calls = [call])
    (hu : upstream call = .response status (some d)) (hs : statusOk status = true) :
    (serve route upstream).response.status = 200 ∧ (serve route upstream).response.body = d := by
  cases route with
  | bootstrapStatic =>
    simp only [serve, BootstrapStatic.GET, catchAll_calls, relay_calls, List.cons.injEq,
      and_true] at hc ⊢
    rw [hc, relay_success upstream call _ _ status d hu hs]
    exact ⟨rfl, rfl⟩
  | fixtures =>
    simp only [serve, Fixtures.GET, catchAll_calls, relay_calls, List.cons.injEq,
      and_true] at hc ⊢
    rw [hc, relay_success upstream call _ _ status d hu hs]
    exact ⟨rfl, rfl⟩
  | eventStatus =>
    simp only [serve, EventStatus.GET, catchAll_calls, relay_calls, List.cons.injEq,
      and_true] at hc ⊢
    rw [hc, relay_success upstream call _ _ status d hu hs]
    exact ⟨rfl, rfl⟩
  | live gw =>
    cases hg : (jsNot gw || isNaN gw || jsLt gw 1 || jsGt gw 38)
    · simp only [serve, Live.GET, hg, Bool.false_eq_true, if_false, catchAll_calls, relay_calls,
        List.cons.injEq, and_true] at hc ⊢
      rw [hc, relay_success upstream call _ _ status d hu hs]
      exact ⟨rfl, rfl⟩
    · simp [serve, Live.GET, hg, reject] at hc
  | dreamTeam gw =>
    cases hg : (jsNot gw || isNaN gw || jsLt gw 1 || jsGt gw 38)
    · simp only [serve, DreamTeam.GET, hg, Bool.false_eq_true, if_false, catchAll_calls,
        relay_calls, List.cons.injEq, and_true] at hc ⊢
      rw [hc, relay_success upstream call _ _ status d hu hs]
      exact ⟨rfl, rfl⟩
    · simp [serve, DreamTeam.GET, hg, reject] at hc
  | player id =>
    cases hg : (jsNot id || isNaN id)
    · simp only [serve, Player.GET, hg, Bool.false_eq_true, if_false, catchAll_calls,
        relay_calls, List.cons.injEq, and_true] at hc ⊢
      rw [hc, relay_success upstream call _ _ status d hu hs]
      exact ⟨rfl, rfl⟩
    · simp [serve, Player.GET, hg, reject] at hc
  | manager id =>
    cases hg : (jsNot id || isNaN id)
    · simp only [serve, Manager.GET, hg, Bool.false_eq_true, if_false, catchAll_calls,
        relayOr404_calls, List.cons.injEq, and_true] at hc ⊢
      rw [hc, relayOr404_success upstream call _ _ _ status d hu hs]
      exact ⟨rfl, rfl⟩
    · simp [serve, Manager.GET, hg, reject] at hc
  | managerHistory id =>
    cases hg : (jsNot id || isNaN id)
    · simp only [serve, ManagerHistory.GET, hg, Bool.false_eq_true, if_false, catchAll_calls,
        relayOr404_calls, List.cons.injEq, and_true] at hc ⊢
      rw [hc, relayOr404_success upstream call _ _ _ status d hu hs]
      exact ⟨rfl, rfl⟩
    · simp [serve, ManagerHistory.GET, hg, reject] at hc
  | managerTransfers id =>
    cases hg : (jsNot id || isNaN id)
    · simp only [serve, ManagerTransfers.GET, hg, Bool.false_eq_true, if_false, catchAll_calls,
        relayOr404_calls, List.cons.injEq, and_true] at hc ⊢
      rw [hc, relayOr404_success upstream call _ _ _ status d hu hs]
      exact ⟨rfl, rfl⟩
    · simp [serve, ManagerTransfers.GET, hg, reject] at hc
  | managerPicks id gw =>
    cases hg : (jsNot id || isNaN id)
    · cases hw : (jsNot gw || isNaN gw || jsLt gw 1 || jsGt gw 38)
      · simp only [serve, ManagerPicks.GET, hg, hw, Bool.false_eq_true, if_false,
          catchAll_calls, relayOr404_calls, List.cons.injEq, and_true] at hc ⊢
        rw [hc, relayOr404_success upstream call _ _ _ status d hu hs]
        exact ⟨rfl, rfl⟩
      · simp [serve, ManagerPicks.GET, hg, hw, reject] at hc
    · simp [serve, ManagerPicks.GET, hg, reject] at hc
  | league sp id =>
    cases hg : (jsNot id || isNaN id)
    · cases hw : (isNaN (League.pageOf sp) || jsLt (League.pageOf sp) 1)
      · simp only [serve, League.GET, hg, hw, Bool.false_eq_true, if_false,
          catchAll_calls, relayOr404_calls, List.cons.injEq, and_true] at hc ⊢
        rw [hc, relayOr404_success upstream call _ _ _ status d hu hs]
        exact ⟨rfl, rfl⟩
      · simp [serve, League.GET, hg, hw, reject] at hc
    · simp [serve, League.GET, hg, reject] at hc

/-- C4 at a concrete input: the fixtures handler relays the upstream list
`[1, "a"]` unchanged. -/
theorem success_body_relayed_witness :
    (serve .fixtures (fun _ => .response 200 (some (.arr [.num 1, .str "a"])))).response.status
        = 200 ∧
      (serve .fixtures (fun _ => .response 200 (some (.arr [.num 1, .str "a"])))).response.body
        = .arr [.num 1, .str "a"] :=
  success_body_relayed .fixtures (fun _ => .response 200 (some (.arr [.num 1, .str "a"])))
    Fixtures.upstreamCall 200 (.arr [.num 1, .str "a"]) (by simp [serve, Fixtures.GET]) rfl
    (by decide)

/-- C5. For a manager ID that passes validation, an upstream status 404 makes
the manager-profile handler return status 404 with body exactly
`{error: "Manager not found"}`; the league handler, for a league ID and page
that pass validation, returns 404 `{error: "League not found"}`. -/
theorem upstream_404_not_found :
    (∀ (managerId : String) (upstream : Upstream) (body : Option Json),
        managerId ≠ "" → StringToNumber managerId ≠ .nan →
        upstream (Manager.upstreamCall managerId) = .response 404 body →
        (Manager.GET managerId upstream).response =
          { status := 404, body := errorBody "Manager not found", headers := [] }) ∧
      ∀ (searchParams : List (String × String)) (leagueId : String) (upstream : Upstream)
        (body : Option Json),
        leagueId ≠ "" → StringToNumber leagueId ≠ .nan →
        StringToNumber (League.pageOf searchParams) ≠ .nan →
        (StringToNumber (League.pageOf searchParams)).lt (.fin 1) = false →
        upstream (League.upstreamCall leagueId (League.pageOf searchParams)) =
          .response 404 body →
        (League.GET searchParams leagueId upstream).response =
          { status := 404, body := errorBody "League not found", headers := [] } := by
  constructor
  · intro managerId upstream body hne hnum hu
    have hg : (jsNot managerId || isNaN managerId) = false := by
      simp [(jsNot_eq_false_iff managerId).2 hne, (isNaN_eq_false_iff managerId).2 hnum]
    simp only [Manager.GET, hg, Bool.false_eq_true, if_false]
    rw [relayOr404_not_found upstream _ _ _ _ body hu]
  · intro searchParams leagueId upstream body hne hnum hpage hlt hu
    have hg : (jsNot leagueId || isNaN leagueId) = false := by
      simp [(jsNot_eq_false_iff leagueId).2 hne, (isNaN_eq_false_iff leagueId).2 hnum]
    have hp : (isNaN (League.pageOf searchParams) || jsLt (League.pageOf searchParams) 1)
        = false := by
      simp [(isNaN_eq_false_iff _).2 hpage, jsLt, hlt]
    simp only [League.GET, hg, hp, Bool.false_eq_true, if_false]
    rw [relayOr404_not_found upstream _ _ _ _ body hu]

/-- The scenario of C5: manager `999999999`, upstream status 404. -/
theorem upstream_404_not_found_witness :
    (Manager.GET "999999999" (fun _ => .response 404 none)).response =
        { status := 404, body := errorBody "Manager not found", headers := [] } ∧
      (League.GET [] "314" (fun _ => .response 404 none)).response =
        { status := 404, body := errorBody "League not found", headers := [] } :=
  ⟨upstream_404_not_found.1 "999999999" (fun _ => .response 404 none) none (by decide)
      (by decide!) rfl,
    upstream_404_not_found.2 [] "314" (fun _ => .response 404 none) none (by decide)
      (by decide!) (by decide!) (by decide!) rfl⟩

/-- C6 does not hold of the code. The player-summary, live-gameweek and
dream-team handlers have no 404 branch: with valid parameters and an upstream
status 404 each of them returns status 500 with its generic failure message. -/
theorem upstream_404_gives_500 :
    (Player.GET "999999" (fun _ => .response 404 none)).response.status = 500 ∧
      (Player.GET "999999" (fun _ => .response 404 none)).response.body.errorMessage =
        some "Failed to fetch player 999999 summary" ∧
      (Live.GET "38" (fun _ => .response 404 none)).response.status = 500 ∧
      (Live.GET "38" (fun _ => .response 404 none)).response.body.errorMessage =
        some "Failed to fetch live data for GW38" ∧
      (DreamTeam.GET "38" (fun _ => .response 404 none)).response.status = 500 ∧
      (DreamTeam.GET "38" (fun _ => .response 404 none)).response.body.errorMessage =
        some "Failed to fetch dream team for GW38" := by
  decide!

/-- C7. For a manager ID that passes validation, when the upstream call is
rejected (network exception) or answers with a status outside 200..299 other
than 404, the manager-profile handler returns status 500 with body
`{error: "Failed to fetch manager <id> profile"}`, having issued exactly one
upstream request. -/
theorem manager_failure_gives_500 (managerId : String) (upstream : Upstream)
    (hne : managerId ≠ "") (hnum : StringToNumber managerId ≠ .nan)
    (hfail : upstream (Manager.upstreamCall managerId) = .rejected ∨
      ∃ status body, upstream (Manager.upstreamCall managerId) = .response status body ∧
        statusOk status = false ∧ status ≠ 404) :
    Manager.GET managerId upstream =
      { response :=
          { status := 500,
            body := errorBody ("Failed to fetch manager " ++ managerId ++ " profile"),
            headers := [] },
        calls := [Manager.upstreamCall managerId] } := by
  have hg : (jsNot managerId || isNaN managerId) = false := by
    simp [(jsNot_eq_false_iff managerId).2 hne, (isNaN_eq_false_iff managerId).2 hnum]
  simp only [Manager.GET, hg, Bool.false_eq_true, if_false]
  apply relayOr404_failure
  rcases hfail with h | h
  · exact Or.inl h
  · exact Or.inr (Or.inl h)

/-- C7 at a concrete input: manager `42`, upstream status 503. -/
theorem manager_failure_gives_500_witness :
    Manager.GET "42" (fun _ => .response 503 none) =
      { response :=
          { status := 500, body := errorBody ("Failed to fetch manager " ++ "42" ++ " profile"),
            headers := [] },
        calls := [Manager.upstreamCall "42"] } :=
  manager_failure_gives_500 "42" (fun _ => .response 503 none) (by decide) (by decide!)
    (Or.inr ⟨503, none, rfl, by decide, by decide⟩)

/-! ## Cache directives (C8, C9) and the envelope (C10) -/

/-- The response headers of each handler on success, next to the revalidate
window of its upstream call. -/
theorem success_headers (route : Route) (upstream : Upstream)
    (h : (serve route upstream).response.status = 200) :
    ∃ call cc, (serve route upstream).calls = [call] ∧
      (serve route upstream).response.headers = [("Cache-Control", cc)] ∧
      (call.revalidate, cc) ∈
        [(120, "public, s-maxage=120, stale-while-revalidate=240"),
         (300, "public, s-maxage=300, stale-while-revalidate=600"),
         (600, "public, s-maxage=600, stale-while-revalidate=1200"),
         (900, "public, s-maxage=900, stale-while-revalidate=1800"),
         (1800, "public, s-maxage=1800, stale-while-revalidate=3600")] ∧
      call.revalidate = documentedWindow route := by
  have plain : ∀ (c : FetchCall) (cc msg : String),
      (catchAll (relay upstream c cc) msg).response.status = 200 →
      (catchAll (relay upstream c cc) msg).calls = [c] ∧
        (catchAll (relay upstream c cc) msg).response.headers = [("Cache-Control", cc)] := by
    intro c cc msg h
    rcases relay_cases upstream c cc msg with ⟨d, hd⟩ | hd
    · rw [hd]; exact ⟨rfl, rfl⟩
    · rw [hd] at h; simp at h
  have with404 : ∀ (c : FetchCall) (nf cc msg : String),
      (catchAll (relayOr404 upstream c nf cc) msg).response.status = 200 →
      (catchAll (relayOr404 upstream c nf cc) msg).calls = [c] ∧
        (catchAll (relayOr404 upstream c nf cc) msg).response.headers =
          [("Cache-Control", cc)] := by
    intro c nf cc msg h
    rcases relayOr404_cases upstream c nf cc msg with ⟨d, hd⟩ | hd | hd
    · rw [hd]; exact ⟨rfl, rfl⟩
    · rw [hd] at h; simp at h
    · rw [hd] at h; simp at h
  cases route with
  | bootstrapStatic =>
    simp only [serve, BootstrapStatic.GET] at h ⊢
    have := plain _ _ _ h
    exact ⟨_, _, this.1, this.2, by simp [BootstrapStatic.upstreamCall], rfl⟩
  | fixtures =>
    simp only [serve, Fixtures.GET] at h ⊢
    have := plain _ _ _ h
    exact ⟨_, _, this.1, this.2, by simp [Fixtures.upstreamCall], rfl⟩
  | eventStatus =>
    simp only [serve, EventStatus.GET] at h ⊢
    have := plain _ _ _ h
    exact ⟨_, _, this.1, this.2, by simp [EventStatus.upstreamCall], rfl⟩
  | live gw =>
    cases hg : (jsNot gw || isNaN gw || jsLt gw 1 || jsGt gw 38)
    · simp only [serve, Live.GET, hg, Bool.false_eq_true, if_false] at h ⊢
      have := plain _ _ _ h
      exact ⟨_, _, this.1, this.2, by simp [Live.upstreamCall], rfl⟩
    · simp [serve, Live.GET, hg] at h
  | dreamTeam gw =>
    cases hg : (jsNot gw || isNaN gw || jsLt gw 1 || jsGt gw 38)
    · simp only [serve, DreamTeam.GET, hg, Bool.false_eq_true, if_false] at h ⊢
      have := plain _ _ _ h
      exact ⟨_, _, this.1, this.2, by simp [DreamTeam.upstreamCall], rfl⟩
    · simp [serve, DreamTeam.GET, hg] at h
  | player id =>
    cases hg : (jsNot id || isNaN id)
    · simp only [serve, Player.GET, hg, Bool.false_eq_true, if_false] at h ⊢
      have := plain _ _ _ h
      exact ⟨_, _, this.1, this.2, by simp [Player.upstreamCall], rfl⟩
    · simp [serve, Player.GET, hg] at h
  | manager id =>
    cases hg : (jsNot id || isNaN id)
    · simp only [serve, Manager.GET, hg, Bool.false_eq_true, if_false] at h ⊢
      have := with404 _ _ _ _ h
      exact ⟨_, _, this.1, this.2, by simp [Manager.upstreamCall], rfl⟩
    · simp [serve, Manager.GET, hg] at h
  | managerHistory id =>
    cases hg : (jsNot id || isNaN id)
    · simp only [serve, ManagerHistory.GET, hg, Bool.false_eq_true, if_false] at h ⊢
      have := with404 _ _ _ _ h
      exact ⟨_, _, this.1, this.2, by simp [ManagerHistory.upstreamCall], rfl⟩
    · simp [serve, ManagerHistory.GET, hg] at h
  | managerTransfers id =>
    cases hg : (jsNot id || isNaN id)
    · simp only [serve, ManagerTransfers.GET, hg, Bool.false_eq_true, if_false] at h ⊢
      have := with404 _ _ _ _ h
      exact ⟨_, _, this.1, this.2, by simp [ManagerTransfers.upstreamCall], rfl⟩
    · simp [serve, ManagerTransfers.GET, hg] at h
  | managerPicks id gw =>
    cases hg : (jsNot id || isNaN id)
    · cases hw : (jsNot gw || isNaN gw || jsLt gw 1 || jsGt gw 38)
      · simp only [serve, ManagerPicks.GET, hg, hw, Bool.false_eq_true, if_false] at h ⊢
        have := with404 _ _ _ _ h
        exact ⟨_, _, this.1, this.2, by simp [ManagerPicks.upstreamCall], rfl⟩
      · simp [serve, ManagerPicks.GET, hg, hw] at h
    · simp [serve, ManagerPicks.GET, hg] at h
  | league sp id =>
    cases hg : (jsNot id || isNaN id)
    · cases hw : (isNaN (League.pageOf sp) || jsLt (League.pageOf sp) 1)
      · simp only [serve, League.GET, hg, hw, Bool.false_eq_true, if_false] at h ⊢
        have := with404 _ _ _ _ h
        exact ⟨_, _, this.1, this.2, by simp [League.upstreamCall], rfl⟩
      · simp [serve, League.GET, hg, hw] at h
    · simp [serve, League.GET, hg] at h

/-- C8. On every successful response the `s-maxage` value of the
`Cache-Control` header is the documented window of the resource. -/
theorem s_maxage_is_documented (route : Route) (upstream : Upstream)
    (h : (serve route upstream).response.status = 200) :
    ((serve route upstream).response.header "Cache-Control").bind (cacheDirective "s-maxage") =
      some (documentedWindow route) := by
  obtain ⟨call, cc, -, hh, hmem, hw⟩ := success_headers route upstream h
  have hv : cacheDirective "s-maxage" cc = some call.revalidate := by
    simp only [List.mem_cons, Prod.mk.injEq, List.mem_singleton, List.not_mem_nil,
      or_false] at hmem
    rcases hmem with ⟨h1, h2⟩ | ⟨h1, h2⟩ | ⟨h1, h2⟩ | ⟨h1, h2⟩ | ⟨h1, h2⟩ <;>
      rw [h1, h2] <;> decide
  simp [NextResponse.header, hh, List.lookup, hv, hw]

/-- C8 at a concrete input: a successful live-gameweek response carries
`s-maxage=120`. -/
theorem s_maxage_is_documented_witness :
    ((serve (.live "7") (fun _ => .response 200 (some .null))).response.header
        "Cache-Control").bind (cacheDirective "s-maxage") = some 120 :=
  s_maxage_is_documented (.live "7") (fun _ => .response 200 (some .null)) (by decide!)

/-- C9. On success the `Cache-Control` header of every handler is the value
`createCacheHeaders(w)` computes for the revalidate window `w` of the handler's
own upstream call: its `s-maxage` is `w` and its `stale-while-revalidate` is
twice `w`. -/
theorem cache_header_mirrors_fetch_window (route : Route) (upstream : Upstream)
    (h : (serve route upstream).response.status = 200) :
    ∃ call value, (serve route upstream).calls = [call] ∧
      (serve route upstream).response.header "Cache-Control" = some value ∧
      (createCacheHeaders call.revalidate).lookup "Cache-Control" = some value ∧
      cacheDirective "s-maxage" value = some call.revalidate ∧
      cacheDirective "stale-while-revalidate" value = some (2 * call.revalidate) := by
  obtain ⟨call, cc, hc, hh, hmem, -⟩ := success_headers route upstream h
  refine ⟨call, cc, hc, by simp [NextResponse.header, hh, List.lookup], ?_⟩
  simp only [List.mem_cons, Prod.mk.injEq, List.mem_singleton, List.not_mem_nil,
    or_false] at hmem
  rcases hmem with ⟨h1, h2⟩ | ⟨h1, h2⟩ | ⟨h1, h2⟩ | ⟨h1, h2⟩ | ⟨h1, h2⟩ <;>
    rw [h1, h2] <;> decide

/-- C9 at a concrete input: the league handler fetches with window 600 and
answers with the header `createCacheHeaders(600)` gives. -/
theorem cache_header_mirrors_fetch_window_witness :
    ∃ call value,
      (serve (.league [("page", "2")] "314") (fun _ => .response 200 (some .null))).calls
        = [call] ∧
      (serve (.league [("page", "2")] "314") (fun _ => .response 200 (some .null))).response.header
        "Cache-Control" = some value ∧
      (createCacheHeaders call.revalidate).lookup "Cache-Control" = some value ∧
      cacheDirective "s-maxage" value = some call.revalidate ∧
      cacheDirective "stale-while-revalidate" value = some (2 * call.revalidate) :=
  cache_header_mirrors_fetch_window (.league [("page", "2")] "314")
    (fun _ => .response 200 (some .null)) (by decide!)

/-- C10. Every handler, for every request and every outcome of the upstream
call, returns a response whose status is 200, 400, 404 or 500, and whose body,
unless the status is 200, is an object with the single field `error` holding a
string. -/
theorem every_response_enveloped (route : Route) (upstream : Upstream) :
    ((serve route upstream).response.status = 200 ∨
        (serve route upstream).response.status = 400 ∨
        (serve route upstream).response.status = 404 ∨
        (serve route upstream).response.status = 500) ∧
      ((serve route upstream).response.status ≠ 200 →
        ∃ msg : String, (serve route upstream).response.body = .obj [("error", .str msg)]) := by
  have rejected : ∀ m msg : String,
      ((catchAll (reject m) msg).response.status = 200 ∨
          (catchAll (reject m) msg).response.status = 400 ∨
          (catchAll (reject m) msg).response.status = 404 ∨
          (catchAll (reject m) msg).response.status = 500) ∧
        ((catchAll (reject m) msg).response.status ≠ 200 →
          ∃ e : String, (catchAll (reject m) msg).response.body = .obj [("error", .str e)]) := by
    intro m msg
    rw [catchAll_reject]
    exact ⟨Or.inr (Or.inl rfl), fun _ => ⟨m, rfl⟩⟩
  have plain : ∀ (c : FetchCall) (cc msg : String),
      ((catchAll (relay upstream c cc) msg).response.status = 200 ∨
          (catchAll (relay upstream c cc) msg).response.status = 400 ∨
          (catchAll (relay upstream c cc) msg).response.status = 404 ∨
          (catchAll (relay upstream c cc) msg).response.status = 500) ∧
        ((catchAll (relay upstream c cc) msg).response.status ≠ 200 →
          ∃ e : String,
            (catchAll (relay upstream c cc) msg).response.body = .obj [("error", .str e)]) := by
    intro c cc msg
    rcases relay_cases upstream c cc msg with ⟨d, hd⟩ | hd <;> rw [hd]
    · exact ⟨Or.inl rfl, fun hne => absurd rfl hne⟩
    · exact ⟨Or.inr (Or.inr (Or.inr rfl)), fun _ => ⟨msg, rfl⟩⟩
  have with404 : ∀ (c : FetchCall) (nf cc msg : String),
      ((catchAll (relayOr404 upstream c nf cc) msg).response.status = 200 ∨
          (catchAll (relayOr404 upstream c nf cc) msg).response.status = 400 ∨
          (catchAll (relayOr404 upstream c nf cc) msg).response.status = 404 ∨
          (catchAll (relayOr404 upstream c nf cc) msg).response.status = 500) ∧
        ((catchAll (relayOr404 upstream c nf cc) msg).response.status ≠ 200 →
          ∃ e : String,
            (catchAll (relayOr404 upstream c nf cc) msg).response.body =
              .obj [("error", .str e)]) := by
    intro c nf cc msg
    rcases relayOr404_cases upstream c nf cc msg with ⟨d, hd⟩ | hd | hd <;> rw [hd]
    · exact ⟨Or.inl rfl, fun hne => absurd rfl hne⟩
    · exact ⟨Or.inr (Or.inr (Or.inl rfl)), fun _ => ⟨nf, rfl⟩⟩
    · exact ⟨Or.inr (Or.inr (Or.inr rfl)), fun _ => ⟨msg, rfl⟩⟩
  cases route with
  | bootstrapStatic => exact plain _ _ _
  | fixtures => exact plain _ _ _
  | eventStatus => exact plain _ _ _
  | live gw =>
    simp only [serve, Live.GET]
    split
    · exact rejected _ _
    · exact plain _ _ _
  | dreamTeam gw =>
    simp only [serve, DreamTeam.GET]
    split
    · exact rejected _ _
    · exact plain _ _ _
  | player id =>
    simp only [serve, Player.GET]
    split
    · exact rejected _ _
    · exact plain _ _ _
  | manager id =>
    simp only [serve, Manager.GET]
    split
    · exact rejected _ _
    · exact with404 _ _ _ _
  | managerHistory id =>
    simp only [serve, ManagerHistory.GET]
    split
    · exact rejected _ _
    · exact with404 _ _ _ _
  | managerTransfers id =>
    simp only [serve, ManagerTransfers.GET]
    split
    · exact rejected _ _
    · exact with404 _ _ _ _
  | managerPicks id gw =>
    simp only [serve, ManagerPicks.GET]
    split
    · exact rejected _ _
    · split
      · exact rejected _ _
      · exact with404 _ _ _ _
  | league sp id =>
    simp only [serve, League.GET]
    split
    · exact rejected _ _
    · split
      · exact rejected _ _
      · exact with404 _ _ _ _

/-- C10 at a concrete input: a rejected upstream call behind the event-status
handler gives status 500, which is not 200, and an error envelope. -/
theorem every_response_enveloped_witness :
    (serve .eventStatus (fun _ => .rejected)).response.status ≠ 200 ∧
      ∃ msg : String,
        (serve .eventStatus (fun _ => .rejected)).response.body = .obj [("error", .str msg)] :=
  ⟨by decide,
    (every_response_enveloped .eventStatus (fun _ => .rejected)).2 (by decide)⟩

/-! ## The client service (C11, C17) -/

/-- The shared frame of the service functions meets the contract. -/
theorem rethrow_tryFetch (fetch : ClientFetch) (url label : String) :
    ReturnsOrThrows fetch url label (fplService.rethrow (fplService.tryFetch fetch url) label) := by
  constructor
  · intro status d hu hs
    simp [fplService.tryFetch, hu, hs, fplService.rethrow]
  · intro h
    rcases h with h | ⟨status, body, h, hs⟩ | ⟨status, h⟩
    · simp [fplService.tryFetch, h, fplService.rethrow]
    · simp [fplService.tryFetch, h, hs, fplService.rethrow]
    · cases hs : statusOk status <;> simp [fplService.tryFetch, h, hs, fplService.rethrow]

/-- C11. `getManagerTransfers(id)` returns the parsed JSON body when the proxy
response is ok, and throws an error with the message
`Failed to fetch manager <id> transfers` on a status outside 200..299, a
network failure or an unparsable body; the ten other service functions do the
same with their own path and label. -/
theorem service_returns_or_throws (fetch : ClientFetch) (id gameweek : String)
    (page : Option String) :
    ReturnsOrThrows fetch ("/api/fpl/manager/" ++ id ++ "/transfers")
        ("Failed to fetch manager " ++ id ++ " transfers")
        (fplService.getManagerTransfers fetch id) ∧
      ReturnsOrThrows fetch "/api/fpl/bootstrap-static" "Failed to fetch bootstrap data"
        (fplService.getBootstrapStatic fetch) ∧
      ReturnsOrThrows fetch ("/api/fpl/player/" ++ id) ("Failed to fetch player " ++ id ++ " summary")
        (fplService.getPlayerSummary fetch id) ∧
      ReturnsOrThrows fetch ("/api/fpl/manager/" ++ id)
        ("Failed to fetch manager " ++ id ++ " profile")
        (fplService.getManagerProfile fetch id) ∧
      ReturnsOrThrows fetch ("/api/fpl/manager/" ++ id ++ "/picks/" ++ gameweek)
        ("Failed to fetch manager " ++ id ++ " picks for GW" ++ gameweek)
        (fplService.getManagerPicks fetch id gameweek) ∧
      ReturnsOrThrows fetch ("/api/fpl/manager/" ++ id ++ "/history")
        ("Failed to fetch manager " ++ id ++ " history")
        (fplService.getManagerHistory fetch id) ∧
      ReturnsOrThrows fetch "/api/fpl/fixtures" "Failed to fetch fixtures"
        (fplService.getFixtures fetch) ∧
      ReturnsOrThrows fetch ("/api/fpl/live/" ++ gameweek)
        ("Failed to fetch live data for GW" ++ gameweek)
        (fplService.getLiveGameweek fetch gameweek) ∧
      ReturnsOrThrows fetch ("/api/fpl/dream-team/" ++ gameweek)
        ("Failed to fetch dream team for GW" ++ gameweek)
        (fplService.getDreamTeam fetch gameweek) ∧
      ReturnsOrThrows fetch ("/api/fpl/league/" ++ id ++ "?page=" ++ page.getD "1")
        ("Failed to fetch league " ++ id ++ " standings")
        (fplService.getLeagueStandings fetch id page) ∧
      ReturnsOrThrows fetch "/api/fpl/event-status" "Failed to fetch event status"
        (fplService.getEventStatus fetch) := by
  refine ⟨?_, ?_, ?_, ?_, ?_, ?_, ?_, ?_, ?_, ?_, ?_⟩ <;> exact rethrow_tryFetch fetch _ _

/-- C11 at a concrete input: the proxy answers 502 with an error envelope and
`getManagerTransfers("42")` throws its own label. -/
theorem service_returns_or_throws_witness :
    fplService.getManagerTransfers
        (fun _ => .response 502 (some (errorBody "Failed to fetch manager 42 transfers"))) "42" =
      .error ("Failed to fetch manager " ++ "42" ++ " transfers") :=
  (service_returns_or_throws
      (fun _ => .response 502 (some (errorBody "Failed to fetch manager 42 transfers")))
      "42" "7" none).1.2
    (Or.inr (Or.inl ⟨502, some (errorBody "Failed to fetch manager 42 transfers"), rfl,
      by decide⟩))

/-- Whatever a service function throws carries the label. -/
theorem rethrow_error (attempt : Except Thrown Json) (label e : String)
    (h : fplService.rethrow attempt label = .error e) : e = label := by
  unfold fplService.rethrow at h
  cases attempt with
  | ok d => simp at h
  | error t => simp at h; exact h.symm

/-- C17. The error `getManagerProfile` throws does not depend on how the request
failed: any two failing runs for the same manager ID, whatever the proxy's
status and body or the network error, throw the same message
`Failed to fetch manager <id> profile`. -/
theorem profile_error_is_uniform (id : String) (fetch₁ fetch₂ : ClientFetch) (e₁ e₂ : String)
    (h₁ : fplService.getManagerProfile fetch₁ id = .error e₁)
    (h₂ : fplService.getManagerProfile fetch₂ id = .error e₂) :
    e₁ = e₂ ∧ e₁ = "Failed to fetch manager " ++ id ++ " profile" := by
  have a := rethrow_error _ _ _ h₁
  have b := rethrow_error _ _ _ h₂
  exact ⟨a.trans b.symm, a⟩

/-- C17 at a concrete input: a 404 with the proxy's `Manager not found` envelope
and a network failure give the same error. -/
theorem profile_error_is_uniform_witness :
    fplService.getManagerProfile
        (fun _ => .response 404 (some (errorBody "Manager not found"))) "7" =
        .error "Failed to fetch manager 7 profile" ∧
      fplService.getManagerProfile (fun _ => .rejected) "7" =
        .error "Failed to fetch manager 7 profile" ∧
      "Failed to fetch manager 7 profile" = "Failed to fetch manager " ++ "7" ++ " profile" :=
  ⟨rfl, rfl,
    (profile_error_is_uniform "7"
      (fun _ => .response 404 (some (errorBody "Manager not found")))
      (fun _ => .rejected) "Failed to fetch manager 7 profile"
      "Failed to fetch manager 7 profile" rfl rfl).2⟩

/-! ## Order of validation (C15, C16) -/

/-- C15, as the code has it. The league-standings handler issues an upstream
request exactly when the league ID is non-empty and numeric and the page value
is numeric and not below 1, and that request carries the page value as
`page_standings`; the page value is the `page` query parameter, or `"1"` when
that is absent or empty; when the league ID passes and the page value is
non-numeric or below 1 the response is 400
`{error: "Valid page number is required"}` and no upstream request is made. -/
theorem league_page_checked (searchParams : List (String × String)) (leagueId : String)
    (upstream : Upstream) :
    ((League.GET searchParams leagueId upstream).calls ≠ [] ↔
        (leagueId ≠ "" ∧ StringToNumber leagueId ≠ .nan) ∧
          StringToNumber (League.pageOf searchParams) ≠ .nan ∧
          (StringToNumber (League.pageOf searchParams)).lt (.fin 1) = false) ∧
      ((League.GET searchParams leagueId upstream).calls ≠ [] →
        (League.GET searchParams leagueId upstream).calls.map FetchCall.url =
          ["https://fantasy.premierleague.com/api/leagues-classic/" ++ leagueId ++
            "/standings/?page_standings=" ++ League.pageOf searchParams]) ∧
      ((searchParams.lookup "page" = none ∨ searchParams.lookup "page" = some "") →
        League.pageOf searchParams = "1") ∧
      (∀ p, searchParams.lookup "page" = some p → p ≠ "" → League.pageOf searchParams = p) ∧
      (leagueId ≠ "" → StringToNumber leagueId ≠ .nan →
        (StringToNumber (League.pageOf searchParams) = .nan ∨
          (StringToNumber (League.pageOf searchParams)).lt (.fin 1) = true) →
        League.GET searchParams leagueId upstream =
          { response :=
              { status := 400, body := errorBody "Valid page number is required",
                headers := [] },
            calls := [] }) := by
  have hid : (jsNot leagueId || isNaN leagueId) = false ↔
      (leagueId ≠ "" ∧ StringToNumber leagueId ≠ .nan) := by
    rw [Bool.or_eq_false_iff, jsNot_eq_false_iff, isNaN_eq_false_iff]
  have hpage : (isNaN (League.pageOf searchParams) || jsLt (League.pageOf searchParams) 1) = false ↔
      (StringToNumber (League.pageOf searchParams) ≠ .nan ∧
        (StringToNumber (League.pageOf searchParams)).lt (.fin 1) = false) := by
    rw [Bool.or_eq_false_iff, isNaN_eq_false_iff]
    rfl
  refine ⟨?_, ?_, ?_, ?_, ?_⟩
  · cases hg : (jsNot leagueId || isNaN leagueId)
    · cases hw : (isNaN (League.pageOf searchParams) || jsLt (League.pageOf searchParams) 1)
      · have a := hid.1 hg
        have b := hpage.1 hw
        simp [League.GET, hg, hw, a, b]
      · have b : ¬ (StringToNumber (League.pageOf searchParams) ≠ .nan ∧
            (StringToNumber (League.pageOf searchParams)).lt (.fin 1) = false) := by
          intro hb
          rw [hpage.2 hb] at hw
          exact Bool.noConfusion hw
        simp only [League.GET, hg, hw, Bool.false_eq_true, if_false, if_true, catchAll_reject,
          ne_eq, not_true_eq_false, false_iff, not_and]
        intro _ hb1 hb2
        exact b ⟨hb1, hb2⟩
    · have a : ¬ (leagueId ≠ "" ∧ StringToNumber leagueId ≠ .nan) := by
        intro ha
        rw [hid.2 ha] at hg
        exact Bool.noConfusion hg
      simp only [League.GET, hg, if_true, catchAll_reject, ne_eq, not_true_eq_false, false_iff,
        not_and]
      intro ha1 _
      exact absurd ha1 a
  · intro h
    cases hg : (jsNot leagueId || isNaN leagueId)
    · cases hw : (isNaN (League.pageOf searchParams) || jsLt (League.pageOf searchParams) 1)
      · simp only [League.GET, hg, hw, Bool.false_eq_true, if_false, catchAll_calls,
          relayOr404_calls, List.map_cons, List.map_nil, League.upstreamCall]
        rfl
      · simp [League.GET, hg, hw] at h
    · simp [League.GET, hg] at h
  · intro h
    rcases h with h | h
    · simp [League.pageOf, h]
    · have : jsNot "" = true := by decide
      simp [League.pageOf, h, this]
  · intro p hp hne
    have : jsNot p = false := (jsNot_eq_false_iff p).2 hne
    simp [League.pageOf, hp, this]
  · intro hne hnum hp
    have hg : (jsNot leagueId || isNaN leagueId) = false := hid.2 ⟨hne, hnum⟩
    have hw : (isNaN (League.pageOf searchParams) || jsLt (League.pageOf searchParams) 1)
        = true := by
      rcases hp with hp | hp
      · simp [(isNaN_eq_true_iff _).2 hp]
      · simp [jsLt, hp]
    simp [League.GET, hg, hw]

/-- The amended C15 at a concrete input: league `314` with `page=0`. -/
theorem league_page_checked_witness :
    League.GET [("page", "0")] "314" (fun _ => .response 200 (some .null)) =
      { response :=
          { status := 400, body := errorBody "Valid page number is required", headers := [] },
        calls := [] } :=
  (league_page_checked [("page", "0")] "314" (fun _ => .response 200 (some .null))).2.2.2.2
    (by decide) (by decide!) (Or.inr (by decide!))

/-- C15 fails as stated: with the non-numeric league ID `abc` and the page `0`,
which is below 1, the response is the league-ID message, not
`Valid page number is required`. -/
theorem league_id_reported_before_page :
    (StringToNumber (League.pageOf [("page", "0")])).lt (.fin 1) = true ∧
      (League.GET [("page", "0")] "abc" (fun _ => .response 200 (some .null))).response.status
        = 400 ∧
      (League.GET [("page", "0")] "abc"
          (fun _ => .response 200 (some .null))).response.body.errorMessage =
        some "Valid league ID is required" := by
  decide!

/-- C16. In the manager-picks handler the manager ID is validated before the
gameweek: an empty or non-numeric manager ID gives 400
`{error: "Valid manager ID is required"}` whatever the gameweek is; the
gameweek message is the response when the manager ID passes and the gameweek
does not; and a response carrying the gameweek message implies that the manager
ID passed. -/
theorem picks_manager_id_checked_first (managerId gameweek : String) (upstream : Upstream) :
    ((managerId = "" ∨ StringToNumber managerId = .nan) →
        ManagerPicks.GET managerId gameweek upstream =
          { response :=
              { status := 400, body := errorBody "Valid manager ID is required",
                headers := [] },
            calls := [] }) ∧
      (managerId ≠ "" → StringToNumber managerId ≠ .nan →
        (gameweek = "" ∨ StringToNumber gameweek = .nan ∨
          (StringToNumber gameweek).lt (.fin 1) = true ∨
          JSNumber.lt (.fin 38) (StringToNumber gameweek) = true) →
        ManagerPicks.GET managerId gameweek upstream =
          { response :=
              { status := 400, body := errorBody "Valid gameweek (1-38) is required",
                headers := [] },
            calls := [] }) ∧
      ((ManagerPicks.GET managerId gameweek upstream).response.body =
          errorBody "Valid gameweek (1-38) is required" →
        managerId ≠ "" ∧ StringToNumber managerId ≠ .nan) := by
  have hid : (jsNot managerId || isNaN managerId) = false ↔
      (managerId ≠ "" ∧ StringToNumber managerId ≠ .nan) := by
    rw [Bool.or_eq_false_iff, jsNot_eq_false_iff, isNaN_eq_false_iff]
  refine ⟨?_, ?_, ?_⟩
  · intro h
    have hg : (jsNot managerId || isNaN managerId) = true := by
      rcases h with h | h
      · simp [(jsNot_eq_true_iff managerId).2 h]
      · simp [(isNaN_eq_true_iff managerId).2 h]
    simp [ManagerPicks.GET, hg]
  · intro hne hnum h
    have hg := hid.2 ⟨hne, hnum⟩
    have hw : (jsNot gameweek || isNaN gameweek || jsLt gameweek 1 || jsGt gameweek 38)
        = true := by
      rcases h with h | h | h | h
      · simp [(jsNot_eq_true_iff gameweek).2 h]
      · simp [(isNaN_eq_true_iff gameweek).2 h]
      · simp [jsLt, h]
      · simp [jsGt, h]
    simp [ManagerPicks.GET, hg, hw]
  · intro h
    cases hg : (jsNot managerId || isNaN managerId)
    · exact hid.1 hg
    · simp [ManagerPicks.GET, hg, errorBody] at h

/-- C16 at a concrete input: manager ID `abc` with the out-of-range gameweek
`99` is answered with the manager-ID message. -/
theorem picks_manager_id_checked_first_witness :
    ManagerPicks.GET "abc" "99" (fun _ => .response 200 (some .null)) =
      { response :=
          { status := 400, body := errorBody "Valid manager ID is required", headers := [] },
        calls := [] } :=
  (picks_manager_id_checked_first "abc" "99" (fun _ => .response 200 (some .null))).1
    (Or.inr (by decide!))

/-! ## The manager-data hook (C12, C13) -/

/-- The run of `fetchManagerData` when profile and history resolve and
`history.current` is not empty. -/
theorem fetchManagerData_with_picks (service : ManagerService) (historyFirst : Bool)
    (id : String) (s : ManagerState) (p : Json) (h : HistoryData) (e : HistoryEntry)
    (es : List HistoryEntry) (hid : id ≠ "") (hp : service.getManagerProfile id = .ok p)
    (hh : service.getManagerHistory id = .ok h) (hc : h.current = some (e :: es)) :
    (useManagerData.fetchManagerData service historyFirst (some id) s).2 =
      [.called (.getManagerProfile id), .called (.getManagerHistory id)] ++
        (if historyFirst then
          [.settled (.getManagerHistory id), .settled (.getManagerProfile id)]
        else [.settled (.getManagerProfile id), .settled (.getManagerHistory id)]) ++
        [.called (.getManagerPicks id ((e :: es).getLast (List.cons_ne_nil e es)).event),
         .settled (.getManagerPicks id ((e :: es).getLast (List.cons_ne_nil e es)).event)] := by
  have hn : jsNot id = false := (jsNot_eq_false_iff id).2 hid
  simp only [useManagerData.fetchManagerData, hn, Bool.false_eq_true, if_false,
    useManagerData.tryBlock, useManagerData.awaitAll, hp, hh, hc]
  cases service.getManagerPicks id ((e :: es).getLast (List.cons_ne_nil e es)).event <;> rfl

/-- C12. In `useManagerData`, for a non-empty manager ID whose profile and
history requests both succeed and whose `history.current` is a non-empty list,
exactly one picks request is issued; it is issued after both earlier requests
have settled, whichever settles first; its gameweek argument is the `event`
field of the last element of `history.current`. -/
theorem picks_after_profile_and_history (service : ManagerService) (historyFirst : Bool)
    (id : String) (s : ManagerState) (p : Json) (h : HistoryData)
    (entries : List HistoryEntry) (hid : id ≠ "")
    (hp : service.getManagerProfile id = .ok p) (hh : service.getManagerHistory id = .ok h)
    (hc : h.current = some entries) (hne : entries ≠ []) :
    ∃ before after,
      (useManagerData.fetchManagerData service historyFirst (some id) s).2 =
        before ++ .called (.getManagerPicks id (entries.getLast hne).event) :: after ∧
      (∃ b₁ b₂ b₃, before = b₁ ++ .called (.getManagerProfile id) :: b₂ ++
          .settled (.getManagerProfile id) :: b₃) ∧
      (∃ b₁ b₂ b₃, before = b₁ ++ .called (.getManagerHistory id) :: b₂ ++
          .settled (.getManagerHistory id) :: b₃) ∧
      (∀ ev ∈ before, ev.isPicksCall = false) ∧ ∀ ev ∈ after, ev.isPicksCall = false := by
  cases entries with
  | nil => exact absurd rfl hne
  | cons e es =>
    refine ⟨[.called (.getManagerProfile id), .called (.getManagerHistory id)] ++
        (if historyFirst then
          [.settled (.getManagerHistory id), .settled (.getManagerProfile id)]
        else [.settled (.getManagerProfile id), .settled (.getManagerHistory id)]),
      [.settled (.getManagerPicks id ((e :: es).getLast hne).event)], ?_, ?_, ?_, ?_, ?_⟩
    · rw [fetchManagerData_with_picks service historyFirst id s p h e es hid hp hh hc]
    · cases historyFirst
      · exact ⟨[], [.called (.getManagerHistory id)], [.settled (.getManagerHistory id)], rfl⟩
      · exact ⟨[], [.called (.getManagerHistory id), .settled (.getManagerHistory id)], [], rfl⟩
    · cases historyFirst
      · exact ⟨[.called (.getManagerProfile id)], [.settled (.getManagerProfile id)], [], rfl⟩
      · exact ⟨[.called (.getManagerProfile id)], [], [.settled (.getManagerProfile id)], rfl⟩
    · cases historyFirst <;> simp [HookEvent.isPicksCall]
    · simp [HookEvent.isPicksCall]

/-- C12 at a concrete input: manager `42`, history with gameweeks 1 and 2. -/
theorem picks_after_profile_and_history_witness :
    ∃ before after,
      (useManagerData.fetchManagerData
          { getManagerProfile := fun _ => .ok .null,
            getManagerHistory := fun _ => .ok { current := some [⟨.num 1⟩, ⟨.num 2⟩] },
            getManagerPicks := fun _ _ => .ok .null }
          false (some "42")
          { profile := none, history := none, currentPicks := none, loading := false,
            error := none }).2 =
        before ++ .called (.getManagerPicks "42"
          (([⟨.num 1⟩, ⟨.num 2⟩] : List HistoryEntry).getLast (by simp)).event) :: after ∧
      (∃ b₁ b₂ b₃, before = b₁ ++ .called (.getManagerProfile "42") :: b₂ ++
          .settled (.getManagerProfile "42") :: b₃) ∧
      (∃ b₁ b₂ b₃, before = b₁ ++ .called (.getManagerHistory "42") :: b₂ ++
          .settled (.getManagerHistory "42") :: b₃) ∧
      (∀ ev ∈ before, ev.isPicksCall = false) ∧ ∀ ev ∈ after, ev.isPicksCall = false :=
  picks_after_profile_and_history _ false "42" _ .null
    { current := some [⟨.num 1⟩, ⟨.num 2⟩] } [⟨.num 1⟩, ⟨.num 2⟩] (by decide) rfl rfl rfl
    (by simp)

/-- C13. In `useManagerData`, when profile and history resolve and the history
has no `current` list or an empty one, no picks request is issued, the profile
and the history are stored and no error is recorded; when the manager ID is
`null` or empty nothing is issued and the state is left as it was. -/
theorem no_picks_without_current (service : ManagerService) (historyFirst : Bool)
    (s : ManagerState) :
    (∀ (id : String) (p : Json) (h : HistoryData), id ≠ "" →
        service.getManagerProfile id = .ok p → service.getManagerHistory id = .ok h →
        (h.current = none ∨ h.current = some []) →
        (∀ ev ∈ (useManagerData.fetchManagerData service historyFirst (some id) s).2,
            ev.isPicksCall = false) ∧
          (useManagerData.fetchManagerData service historyFirst (some id) s).1.profile
            = some p ∧
          (useManagerData.fetchManagerData service historyFirst (some id) s).1.history
            = some h ∧
          (useManagerData.fetchManagerData service historyFirst (some id) s).1.error = none) ∧
      ∀ managerId : Option String, (managerId = none ∨ managerId = some "") →
        useManagerData.fetchManagerData service historyFirst managerId s = (s, []) := by
  constructor
  · intro id p h hid hp hh hc
    have hn : jsNot id = false := (jsNot_eq_false_iff id).2 hid
    rcases hc with hc | hc <;> cases historyFirst <;>
      simp [useManagerData.fetchManagerData, hn, useManagerData.tryBlock,
        useManagerData.awaitAll, hp, hh, hc, HookEvent.isPicksCall]
  · intro managerId h
    rcases h with h | h
    · subst h; rfl
    · subst h
      have : jsNot "" = true := by decide
      simp [useManagerData.fetchManagerData, this]

/-- C13 at a concrete input: manager `42` with an empty `current` list, and the
`null` manager ID. -/
theorem no_picks_without_current_witness :
    (useManagerData.fetchManagerData
        { getManagerProfile := fun _ => .ok (.str "profile"),
          getManagerHistory := fun _ => .ok { current := some [] },
          getManagerPicks := fun _ _ => .ok .null }
        true (some "42")
        { profile := none, history := none, currentPicks := none, loading := false,
          error := none }).1.error = none ∧
      (useManagerData.fetchManagerData
        { getManagerProfile := fun _ => .ok (.str "profile"),
          getManagerHistory := fun _ => .ok { current := some [] },
          getManagerPicks := fun _ _ => .ok .null }
        true none
        { profile := none, history := none, currentPicks := none, loading := false,
          error := none }).2 = [] :=
  ⟨((no_picks_without_current _ true _).1 "42" (.str "profile") { current := some [] }
      (by decide) rfl rfl (Or.inr rfl)).2.2.2,
    congrArg Prod.snd ((no_picks_without_current _ true _).2 none (Or.inl rfl))⟩

/-! ## The live-gameweek hook (C14) -/

/-- Ticks with a registered interval: each issues one call and changes
nothing else. -/
theorem ticks_with_interval (g : Json) (hg : g.truthy = true) (n : Nat) (h : LiveHook)
    (hi : h.interval = true) :
    useLiveGameweek.run (some g) h (List.replicate n .tick) =
      { h with fetches := h.fetches ++ List.replicate n g } := by
  induction n generalizing h with
  | zero => simp [useLiveGameweek.run]
  | succ n ih =>
    have hs : useLiveGameweek.step (some g) h .tick =
        { h with fetches := h.fetches ++ [g] } := by
      simp [useLiveGameweek.step, hi, useLiveGameweek.fetchLiveData, hg]
    have := ih { h with fetches := h.fetches ++ [g] } hi
    simp only [useLiveGameweek.run] at this ⊢
    simp only [List.replicate_succ, List.foldl_cons, hs, this, List.append_assoc,
      List.singleton_append]

/-- Ticks without a registered interval issue nothing. -/
theorem ticks_without_interval (gameweek : Option Json) (n : Nat) (h : LiveHook)
    (hi : h.interval = false) :
    useLiveGameweek.run gameweek h (List.replicate n .tick) = h := by
  induction n with
  | zero => rfl
  | succ n ih =>
    have hs : useLiveGameweek.step gameweek h .tick = h := by
      simp [useLiveGameweek.step, hi]
    simp only [useLiveGameweek.run, List.replicate_succ, List.foldl_cons, hs]
    exact ih

/-- C14. In `useLiveGameweek` with a fixed (truthy) gameweek: mounted with
`autoRefresh` enabled, after `n` ticks exactly `n` calls have been issued in
addition to the one at mount; mounted with `autoRefresh` disabled, ticks issue
none; and after the flag is switched off or the hook is torn down, `m` further
ticks issue none. -/
theorem live_polling_counts (g : Json) (hg : g.truthy = true) (n m : Nat) :
    (useLiveGameweek.run (some g) (useLiveGameweek.init true)
        (.mount :: List.replicate n .tick)).fetches.length = 1 + n ∧
      (useLiveGameweek.run (some g) (useLiveGameweek.init false)
        (.mount :: List.replicate n .tick)).fetches.length = 1 ∧
      (useLiveGameweek.run (some g) (useLiveGameweek.init true)
        (.mount :: List.replicate n .tick ++ .setAutoRefresh false ::
          List.replicate m .tick)).fetches.length = 1 + n ∧
      (useLiveGameweek.run (some g) (useLiveGameweek.init true)
        (.mount :: List.replicate n .tick ++ .unmount ::
          List.replicate m .tick)).fetches.length = 1 + n := by
  have mountOn : useLiveGameweek.step (some g) (useLiveGameweek.init true) .mount =
      { mounted := true, autoRefresh := true, interval := true, fetches := [g] } := by
    simp [useLiveGameweek.step, useLiveGameweek.init, useLiveGameweek.fetchLiveData, hg]
  have mountOff : useLiveGameweek.step (some g) (useLiveGameweek.init false) .mount =
      { mounted := true, autoRefresh := false, interval := false, fetches := [g] } := by
    simp [useLiveGameweek.step, useLiveGameweek.init, useLiveGameweek.fetchLiveData, hg]
  have hOn := ticks_with_interval g hg n
    { mounted := true, autoRefresh := true, interval := true, fetches := [g] } rfl
  have hsplit : ∀ (h : LiveHook) (ev : LiveEvent),
      useLiveGameweek.run (some g) h (List.replicate n .tick ++ ev :: List.replicate m .tick) =
        useLiveGameweek.run (some g)
          (useLiveGameweek.step (some g)
            (useLiveGameweek.run (some g) h (List.replicate n .tick)) ev)
          (List.replicate m .tick) := by
    intro h ev
    simp [useLiveGameweek.run, List.foldl_append]
  refine ⟨?_, ?_, ?_, ?_⟩
  · show (useLiveGameweek.run (some g)
        (useLiveGameweek.step (some g) (useLiveGameweek.init true) .mount)
        (List.replicate n .tick)).fetches.length = 1 + n
    rw [mountOn, hOn]
    simp [Nat.add_comm]
  · show (useLiveGameweek.run (some g)
        (useLiveGameweek.step (some g) (useLiveGameweek.init false) .mount)
        (List.replicate n .tick)).fetches.length = 1
    rw [mountOff, ticks_without_interval _ n _ rfl]
    rfl
  · show (useLiveGameweek.run (some g)
        (useLiveGameweek.step (some g) (useLiveGameweek.init true) .mount)
        (List.replicate n .tick ++ .setAutoRefresh false :: List.replicate m .tick)).fetches.length
        = 1 + n
    rw [mountOn, hsplit, hOn, ticks_without_interval _ m _ (by simp [useLiveGameweek.step])]
    simp [useLiveGameweek.step, Nat.add_comm]
  · show (useLiveGameweek.run (some g)
        (useLiveGameweek.step (some g) (useLiveGameweek.init true) .mount)
        (List.replicate n .tick ++ .unmount :: List.replicate m .tick)).fetches.length = 1 + n
    rw [mountOn, hsplit, hOn, ticks_without_interval _ m _ (by simp [useLiveGameweek.step])]
    simp [useLiveGameweek.step, Nat.add_comm]

/-- The scenario of C14: gameweek 7, enabled, three ticks give three calls in
addition to the one at mount; two more ticks after switching off give none. -/
theorem live_polling_counts_witness :
    (useLiveGameweek.run (some (.num 7)) (useLiveGameweek.init true)
        (.mount :: List.replicate 3 .tick)).fetches.length = 1 + 3 ∧
      (useLiveGameweek.run (some (.num 7)) (useLiveGameweek.init true)
        (.mount :: List.replicate 3 .tick ++ .setAutoRefresh false ::
          List.replicate 2 .tick)).fetches.length = 1 + 3 :=
  ⟨(live_polling_counts (.num 7) (by decide!) 3 2).1,
    (live_polling_counts (.num 7) (by decide!) 3 2).2.2.1⟩

/-! ## Player status and sorting (C18 to C20) -/

/-- The Number value of a mathematical value of at least 1 is greater than 0. -/
theorem roundMV_pos (q : ℚ) (hq : 1 ≤ q) : JSNumber.lt (.fin 0) (roundMV q) = true := by
  have hq0 : 0 < q := lt_of_lt_of_le one_pos hq
  have hspec := floorLog2_spec q hq0
  have h12 : (1 : ℚ) ≤ 2 := by norm_num
  have hulp : (2 : ℚ) ^ (max (floorLog2 q) (-1022) - 52) ≤ q := by
    rcases max_cases (floorLog2 q) (-1022) with ⟨he, -⟩ | ⟨he, -⟩
    · rw [he]
      exact le_trans (zpow_le_zpow_right₀ h12 (by omega)) hspec.1
    · rw [he]
      exact le_trans (zpow_le_one_of_nonpos₀ h12 (by norm_num)) hq
  have hupos : (0 : ℚ) < (2 : ℚ) ^ (max (floorLog2 q) (-1022) - 52) := by positivity
  have hx : 1 ≤ q / (2 : ℚ) ^ (max (floorLog2 q) (-1022) - 52) := by
    rw [le_div_iff₀ hupos]
    simpa using hulp
  have hr := roundHalfEven_spec (q / (2 : ℚ) ^ (max (floorLog2 q) (-1022) - 52))
  rw [abs_le] at hr
  have hn : (0 : ℚ) < (roundHalfEven (q / (2 : ℚ) ^ (max (floorLog2 q) (-1022) - 52)) : ℚ) := by
    linarith [hr.1]
  unfold roundMV
  rw [if_neg (ne_of_gt hq0)]
  simp only
  split
  · rfl
  · simp only [JSNumber.lt, decide_eq_true_eq]
    exact mul_pos hn hupos

/-- The Number value of a non-negative mathematical value is not below 0. -/
theorem roundMV_not_neg (q : ℚ) (hq : 0 ≤ q) : JSNumber.lt (.fin 0) (roundMV q).neg = false := by
  unfold roundMV
  split
  · simp [JSNumber.neg, JSNumber.lt]
  · simp only
    split
    · rfl
    · have hupos : (0 : ℚ) < (2 : ℚ) ^ (max (floorLog2 q) (-1022) - 52) := by positivity
      have hx : 0 ≤ q / (2 : ℚ) ^ (max (floorLog2 q) (-1022) - 52) := div_nonneg hq (le_of_lt hupos)
      have hr := roundHalfEven_spec (q / (2 : ℚ) ^ (max (floorLog2 q) (-1022) - 52))
      rw [abs_le] at hr
      have hn1 : (-1 : ℚ) < (roundHalfEven (q / (2 : ℚ) ^ (max (floorLog2 q) (-1022) - 52)) : ℚ) := by
        linarith [hr.1]
      have hn2 : (-1 : ℤ) < roundHalfEven (q / (2 : ℚ) ^ (max (floorLog2 q) (-1022) - 52)) := by
        exact_mod_cast hn1
      have hn3 : (0 : ℚ) ≤ (roundHalfEven (q / (2 : ℚ) ^ (max (floorLog2 q) (-1022) - 52)) : ℚ) := by
        exact_mod_cast (by omega :
          (0 : ℤ) ≤ roundHalfEven (q / (2 : ℚ) ^ (max (floorLog2 q) (-1022) - 52)))
      simp only [JSNumber.neg, JSNumber.lt, decide_eq_false_iff_not, not_lt, Left.neg_nonpos_iff]
      exact mul_nonneg hn3 (le_of_lt hupos)

/-- The difference `x - y` of two integers, computed on Number values, is
greater than 0 exactly when `y < x`. -/
theorem sub_int_pos_iff (x y : ℤ) :
    JSNumber.lt (.fin 0) (JSNumber.sub (.fin x) (.fin y)) = true ↔ y < x := by
  simp only [JSNumber.sub, roundSigned]
  split
  · rename_i hneg
    have hxy : x < y := by
      have : ((x - y : ℤ) : ℚ) < 0 := by push_cast; exact hneg
      have : x - y < 0 := by exact_mod_cast this
      omega
    rw [roundMV_not_neg _ (by linarith)]
    constructor
    · intro h; exact Bool.noConfusion h
    · intro h; omega
  · rename_i hnn
    rw [not_lt] at hnn
    have hyx : y ≤ x := by
      have : (0 : ℚ) ≤ ((x - y : ℤ) : ℚ) := by push_cast; exact hnn
      have : 0 ≤ x - y := by exact_mod_cast this
      omega
    by_cases heq : x = y
    · subst heq
      simp [roundMV, JSNumber.lt]
    · have h1 : (1 : ℚ) ≤ (x : ℚ) - (y : ℚ) := by
        have : 1 ≤ x - y := by omega
        have : ((1 : ℤ) : ℚ) ≤ ((x - y : ℤ) : ℚ) := by exact_mod_cast this
        push_cast at this
        exact this
      rw [roundMV_pos _ h1]
      constructor
      · intro _; omega
      · intro _; rfl

/-- Sorting by a comparator that is the Number difference of an integer key,
second argument minus first, gives a list in non-increasing order of the key. -/
theorem sortWith_int_key (key : Player → ℤ) (compare : Player → Player → JSNumber)
    (hc : ∀ a b, compare a b = JSNumber.sub (.fin (key b)) (.fin (key a)))
    (players : List Player) :
    List.Sorted (fun a b => key b ≤ key a) (sortWith compare players) := by
  have hr : ∀ a b, staysBefore compare a b = true ↔ key b ≤ key a := by
    intro a b
    unfold staysBefore
    rw [hc]
    have := sub_int_pos_iff (key b) (key a)
    cases hlt : JSNumber.lt (.fin 0) (JSNumber.sub (.fin (key b)) (.fin (key a)))
    · rw [hlt] at this
      simp only [Bool.not_false, true_iff]
      by_contra hcon
      exact Bool.noConfusion (this.2 (by omega))
    · rw [hlt] at this
      simp only [Bool.not_true, Bool.false_eq_true, false_iff, not_le]
      exact this.1 rfl
  haveI : IsTotal Player (fun a b => staysBefore compare a b = true) :=
    ⟨fun a b => by
      simp only [hr]
      exact le_total _ _⟩
  haveI : IsTrans Player (fun a b => staysBefore compare a b = true) :=
    ⟨fun a b c h₁ h₂ => by
      simp only [hr] at h₁ h₂ ⊢
      exact le_trans h₂ h₁⟩
  have hs := List.sorted_insertionSort (fun a b => staysBefore compare a b = true) players
  unfold sortWith
  exact List.Pairwise.imp (fun {a b} h => (hr a b).1 h) hs

/-- Sorting by a comparator that always answers 0 keeps the order. -/
theorem sortWith_zero {α : Type} (compare : α → α → JSNumber)
    (hc : ∀ a b, compare a b = .fin 0) (items : List α) : sortWith compare items = items := by
  unfold sortWith
  apply List.Sorted.insertionSort_eq
  apply List.pairwise_of_forall
  intro a b
  simp [staysBefore, hc, JSNumber.lt]

/-- With a `sortBy` that is none of the six case labels of `sortPlayers`, the
comparator answers 0 and the list comes back in its input order. -/
theorem sortPlayers_unrecognised (ratioFixed : ℤ → ℤ → String) (players : List Player)
    (sortBy : String)
    (h : sortBy ∉ ["points", "price", "form", "selected", "value", "transfers_in"]) :
    sortPlayers ratioFixed players sortBy = players := by
  simp only [List.mem_cons, List.mem_singleton, List.not_mem_nil, or_false, not_or] at h
  obtain ⟨h1, h2, h3, h4, h5, h6⟩ := h
  unfold sortPlayers
  apply sortWith_zero
  intro a b
  simp [sortComparator, h1, h2, h3, h4, h5, h6]

/-- C18 does not hold of the code. Four of the six sort options the planner
offers, the default `ep_next` among them, are not case labels of `sortPlayers`:
with the players 1 (10 points, price 40, expected 1.0, owned by 1.0%) and 2 (90
points, price 60, expected 6.5, owned by 30.0%) in this order, the list stays
in this order under `ep_next`, `total_points`, `selected_by_percent` and
`now_cost`, although player 2 has the higher value of every key. -/
theorem planner_sort_options_ignored :
    "ep_next" ∈ sortOptions ∧ "total_points" ∈ sortOptions ∧
      "selected_by_percent" ∈ sortOptions ∧ "now_cost" ∈ sortOptions ∧
      (availablePlayers (fun _ _ => "0.00") (fun _ => true)
        (some [⟨1, 10, 40, 0, "1.0", "1.0", "1.0"⟩, ⟨2, 90, 60, 0, "6.5", "30.0", "6.5"⟩])
        "ep_next").map Player.id = [1, 2] ∧
      (availablePlayers (fun _ _ => "0.00") (fun _ => true)
        (some [⟨1, 10, 40, 0, "1.0", "1.0", "1.0"⟩, ⟨2, 90, 60, 0, "6.5", "30.0", "6.5"⟩])
        "total_points").map Player.id = [1, 2] ∧
      (availablePlayers (fun _ _ => "0.00") (fun _ => true)
        (some [⟨1, 10, 40, 0, "1.0", "1.0", "1.0"⟩, ⟨2, 90, 60, 0, "6.5", "30.0", "6.5"⟩])
        "selected_by_percent").map Player.id = [1, 2] ∧
      (availablePlayers (fun _ _ => "0.00") (fun _ => true)
        (some [⟨1, 10, 40, 0, "1.0", "1.0", "1.0"⟩, ⟨2, 90, 60, 0, "6.5", "30.0", "6.5"⟩])
        "now_cost").map Player.id = [1, 2] ∧
      (sortPlayers (fun _ _ => "0.00")
        [⟨1, 10, 40, 0, "1.0", "1.0", "1.0"⟩, ⟨2, 90, 60, 0, "6.5", "30.0", "6.5"⟩]
        "points").map Player.id = [2, 1] := by
  decide!

/-- C19. For every player list and every `sortBy`, `sortPlayers` returns a
permutation of its input (the input itself is a value and is not touched);
with `sortBy` `"points"` the result is in non-increasing order of
`total_points`, with `"price"` in non-increasing order of `now_cost`, and with
a `sortBy` that is not a case label the result is the input in its order. -/
theorem sortPlayers_spec (ratioFixed : ℤ → ℤ → String) (players : List Player) :
    (∀ sortBy, (sortPlayers ratioFixed players sortBy).Perm players) ∧
      List.Sorted (fun a b => b.total_points ≤ a.total_points)
        (sortPlayers ratioFixed players "points") ∧
      List.Sorted (fun a b => b.now_cost ≤ a.now_cost)
        (sortPlayers ratioFixed players "price") ∧
      ∀ sortBy, sortBy ∉ ["points", "price", "form", "selected", "value", "transfers_in"] →
        sortPlayers ratioFixed players sortBy = players := by
  refine ⟨?_, ?_, ?_, ?_⟩
  · intro sortBy
    exact List.perm_insertionSort _ players
  · apply sortWith_int_key (fun p => p.total_points)
    intro a b
    simp [sortComparator]
  · apply sortWith_int_key (fun p => p.now_cost)
    intro a b
    simp [sortComparator]
  · intro sortBy h
    exact sortPlayers_unrecognised ratioFixed players sortBy h

/-- C19 at a concrete input: an unrecognised `sortBy` keeps the order. -/
theorem sortPlayers_spec_witness :
    sortPlayers (fun _ _ => "0.00")
        [⟨1, 10, 40, 0, "1.0", "1.0", "1.0"⟩, ⟨2, 90, 60, 0, "6.5", "30.0", "6.5"⟩] "name" =
      [⟨1, 10, 40, 0, "1.0", "1.0", "1.0"⟩, ⟨2, 90, 60, 0, "6.5", "30.0", "6.5"⟩] :=
  (sortPlayers_spec (fun _ _ => "0.00")
      [⟨1, 10, 40, 0, "1.0", "1.0", "1.0"⟩, ⟨2, 90, 60, 0, "6.5", "30.0", "6.5"⟩]).2.2.2
    "name" (by decide)

/-- C20. `getPlayerStatus` reports `available = false` exactly when the status
is `i`, `s` or `u`, or the chance is not `null` and at most 25, and
`available = true` in every other case; with a status of `i`, `s` or `u` the
result does not depend on the chance. -/
theorem player_available_iff (status : String) (chance : Option JSNumber) :
    ((getPlayerStatus status chance).available = false ↔
        (status = "i" ∨ status = "s" ∨ status = "u" ∨
          ∃ c, chance = some c ∧ c.le (.fin 25) = true)) ∧
      ((getPlayerStatus status chance).available = true ↔
        ¬ (status = "i" ∨ status = "s" ∨ status = "u" ∨
          ∃ c, chance = some c ∧ c.le (.fin 25) = true)) ∧
      ((status = "i" ∨ status = "s" ∨ status = "u") →
        ∀ other : Option JSNumber, getPlayerStatus status other = getPlayerStatus status chance) := by
  have main : (getPlayerStatus status chance).available = false ↔
      (status = "i" ∨ status = "s" ∨ status = "u" ∨
        ∃ c, chance = some c ∧ c.le (.fin 25) = true) := by
    unfold getPlayerStatus
    by_cases hi : status = "i"
    · simp [hi]
    · by_cases hs : status = "s"
      · simp [hs]
      · by_cases hu : status = "u"
        · simp [hu]
        · simp only [hi, hs, hu, if_false, false_or]
          cases chance with
          | none => simp
          | some c =>
            cases h25 : c.le (.fin 25) <;> cases h50 : c.le (.fin 50) <;>
              cases h75 : c.le (.fin 75) <;> simp [h25, h50, h75]
  refine ⟨main, ?_, ?_⟩
  · rw [← main]
    cases (getPlayerStatus status chance).available <;> simp
  · intro h other
    unfold getPlayerStatus
    rcases h with h | h | h <;> subst h <;> simp

/-- C20 at a concrete input: a suspended player is unavailable whatever the
chance is. -/
theorem player_available_iff_witness :
    ∀ other : Option JSNumber,
      getPlayerStatus "s" other = getPlayerStatus "s" (some (.fin 100)) :=
  (player_available_iff "s" (some (.fin 100))).2.2 (Or.inr (Or.inl rfl))

/-! ## Live points (C21) -/

/-- The contribution of one pick to the sum of the specification. -/
theorem livePointsSum_cons (elements : List Element) (live : List LiveElement) (pick : Pick)
    (picks : List Pick) :
    livePointsSum elements live (pick :: picks) =
      (match calculateLivePoints.lookup elements live pick with
        | some found =>
          if pick.multiplier > 0 then
            calculateLivePoints.basePoints found.1 found.2 *
              (if pick.is_captain then 2 else pick.multiplier)
          else 0
        | none => 0) + livePointsSum elements live picks := by
  unfold livePointsSum
  cases hl : calculateLivePoints.lookup elements live pick with
  | none => simp [List.filterMap_cons, hl]
  | some found =>
    by_cases hm : pick.multiplier > 0
    · simp [List.filterMap_cons, hl, List.filter_cons, hm]
    · simp [List.filterMap_cons, hl, List.filter_cons, hm]

/-- What the loop of `calculateLivePoints` adds to its two variables. -/
theorem foldl_visit (elements : List Element) (live : List LiveElement) (picks : List Pick)
    (acc : LivePoints) :
    (picks.foldl (calculateLivePoints.visit elements live) acc).totalPoints =
        acc.totalPoints + livePointsSum elements live picks ∧
      playingSum (picks.foldl (calculateLivePoints.visit elements live) acc).playerStats =
        playingSum acc.playerStats + livePointsSum elements live picks := by
  induction picks generalizing acc with
  | nil => simp [livePointsSum]
  | cons pick picks ih =>
    rw [List.foldl_cons, livePointsSum_cons]
    obtain ⟨h₁, h₂⟩ := ih (calculateLivePoints.visit elements live acc pick)
    rw [h₁, h₂]
    unfold calculateLivePoints.visit
    cases hl : calculateLivePoints.lookup elements live pick with
    | none => simp
    | some found =>
      obtain ⟨player, liveStats⟩ := found
      by_cases hm : pick.multiplier > 0
      · simp only [hm, if_true, playingSum, List.filter_append, List.map_append,
          List.sum_append, decide_True, List.filter_cons_of_pos, List.filter_nil,
          List.map_cons, List.map_nil, List.sum_cons, List.sum_nil, add_zero]
        constructor <;> ring
      · simp only [hm, if_false, playingSum, List.filter_append, List.map_append,
          List.sum_append, decide_False, Bool.false_eq_true, not_false_eq_true,
          List.filter_cons_of_neg, List.filter_nil, List.map_nil, List.sum_nil, add_zero,
          zero_add, and_self]

/-- C21. With picks, live data and bootstrap data present, `calculateLivePoints`
returns a `totalPoints` equal to the sum, over the picks whose player and live
stats are found and whose multiplier is greater than 0, of the base points
times the effective multiplier (2 for the captain, the pick's own multiplier
otherwise); it also equals the sum of the `totalPoints` fields of the
`playerStats` entries with `isPlaying` true; picks with a multiplier of 0 or
less add nothing: leaving them out does not change the total. -/
theorem live_total_points (picks : List Pick) (live : List LiveElement)
    (elements : List Element) :
    ∃ r, calculateLivePoints (some picks) (some live) (some elements) = some r ∧
      r.totalPoints = livePointsSum elements live picks ∧
      r.totalPoints = playingSum r.playerStats ∧
      livePointsSum elements live picks =
        livePointsSum elements live (picks.filter fun pick => decide (pick.multiplier > 0)) := by
  refine ⟨_, rfl, ?_, ?_, ?_⟩
  · have := (foldl_visit elements live picks { totalPoints := 0, playerStats := [] }).1
    simpa using this
  · have h := foldl_visit elements live picks { totalPoints := 0, playerStats := [] }
    rw [h.1, h.2]
    simp [playingSum]
  · induction picks with
    | nil => rfl
    | cons pick picks ih =>
      by_cases hm : pick.multiplier > 0
      · rw [List.filter_cons_of_pos (by simpa using hm), livePointsSum_cons, livePointsSum_cons,
          ih]
      · rw [List.filter_cons_of_neg (by simpa using hm), livePointsSum_cons, ih]
        cases calculateLivePoints.lookup elements live pick <;> simp [hm]

/-! ## The planner's formations (C24) -/

/-- An entry found by key in a table is an entry of the table. -/
theorem lookup_mem_table (table : List (String × Formation)) (key : String)
    (formation : Formation) (h : table.lookup key = some formation) :
    (key, formation) ∈ table := by
  induction table with
  | nil => simp [List.lookup] at h
  | cons entry rest ih =>
    obtain ⟨k, f⟩ := entry
    unfold List.lookup at h
    cases hk : (key == k) with
    | true =>
      rw [hk] at h
      simp only [Option.some.injEq] at h
      have : key = k := by simpa using hk
      subst this
      subst h
      exact List.mem_cons_self _ _
    | false =>
      rw [hk] at h
      exact List.mem_cons_of_mem _ (ih h)

/-- Filtering a list of filled slots once more changes nothing. -/
theorem filter_filled_idem (slots : List Slot) :
    (slots.filter Slot.filled).filter Slot.filled = slots.filter Slot.filled := by
  rw [List.filter_filter]
  simp

/-- The number of entries of `startingEleven`. -/
theorem startingEleven_length (team : Team) :
    (teamStats.startingEleven team).length =
      (if team.goalkeeper.filled then 1 else 0) +
        ((team.defenders.filter Slot.filled).length +
          (team.midfielders.filter Slot.filled).length +
          (team.forwards.filter Slot.filled).length) := by
  unfold teamStats.startingEleven
  rw [List.filter_cons, List.filter_append, List.filter_append, filter_filled_idem,
    filter_filled_idem, filter_filled_idem]
  cases hg : team.goalkeeper.filled
  · simp only [Bool.false_eq_true, if_false, List.length_append]
    omega
  · simp only [if_true, List.length_cons, List.length_append]
    omega

/-- The number of entries of `benchPlayers`. -/
theorem benchPlayers_length (team : Team) :
    (teamStats.benchPlayers team).length =
      (if team.bench.goalkeeper.filled then 1 else 0) +
        (team.bench.outfield.filter Slot.filled).length := by
  unfold teamStats.benchPlayers
  rw [List.filter_cons, filter_filled_idem]
  cases hg : team.bench.goalkeeper.filled
  · simp only [Bool.false_eq_true, if_false]
    omega
  · simp only [if_true, List.length_cons]
    omega

/-- The number of entries of `allSelectedPlayers`. -/
theorem totalPlayers_eq (team : Team) :
    teamStats.totalPlayers team =
      (teamStats.startingEleven team).length + (teamStats.benchPlayers team).length := by
  rw [startingEleven_length, benchPlayers_length]
  unfold teamStats.totalPlayers teamStats.allSelectedPlayers
  rw [List.filter_cons, List.filter_append, List.filter_append, List.filter_append,
    List.filter_cons, filter_filled_idem, filter_filled_idem, filter_filled_idem,
    filter_filled_idem]
  cases hg : team.goalkeeper.filled <;> cases hb : team.bench.goalkeeper.filled <;>
    simp only [Bool.false_eq_true, if_false, if_true, List.length_cons, List.length_append] <;>
    omega

/-- C24. Every formation of the table has defenders + midfielders + forwards =
10. Hence, for every team and every formation of the table, if the starting
goalkeeper is set and the numbers of filled defender, midfielder and forward
slots are the formation's, the starting XI has exactly 11 players, and
`teamStats.isValid` holds exactly when in addition the bench goalkeeper is set
and three outfield bench slots are filled, which on a bench of three outfield
slots means all of them; the team then has 15 players. -/
theorem formation_validity :
    (∀ entry ∈ formations,
        entry.2.defenders + entry.2.midfielders + entry.2.forwards = 10) ∧
      ∀ (team : Team) (name : String) (formation : Formation),
        formations.lookup name = some formation →
        team.goalkeeper.filled = true →
        (team.defenders.filter Slot.filled).length = formation.defenders →
        (team.midfielders.filter Slot.filled).length = formation.midfielders →
        (team.forwards.filter Slot.filled).length = formation.forwards →
        (teamStats.startingEleven team).length = 11 ∧
          (teamStats.isValid team name = some true ↔
            (team.bench.goalkeeper.filled = true ∧
              (team.bench.outfield.filter Slot.filled).length = 3)) ∧
          (teamStats.isValid team name ≠ some true → teamStats.isValid team name = some false) ∧
          (team.bench.outfield.length = 3 →
            ((team.bench.outfield.filter Slot.filled).length = 3 ↔
              ∀ slot ∈ team.bench.outfield, slot.filled = true)) ∧
          (teamStats.isValid team name = some true → teamStats.totalPlayers team = 15) := by
  have table : ∀ entry ∈ formations,
      entry.2.defenders + entry.2.midfielders + entry.2.forwards = 10 := by decide
  refine ⟨table, ?_⟩
  intro team name formation hf hg hd hm hw
  have hsum := table (name, formation) (lookup_mem_table formations name formation hf)
  simp only at hsum
  have hstart : (teamStats.startingEleven team).length = 11 := by
    rw [startingEleven_length, hg, hd, hm, hw]
    simp only [if_true]
    omega
  have hbench := benchPlayers_length team
  have hvalid : teamStats.isValid team name = some true ↔
      (team.bench.goalkeeper.filled = true ∧
        (team.bench.outfield.filter Slot.filled).length = 3) := by
    unfold teamStats.isValid
    cases hb : team.bench.goalkeeper.filled
    · simp [hb]
    · rw [hb] at hbench
      simp only [if_true] at hbench
      by_cases h3 : (team.bench.outfield.filter Slot.filled).length = 3
      · have h4 : (teamStats.benchPlayers team).length = 4 := by omega
        simp [hstart, h4, hg, hf, hd, hm, hw, h3]
      · have h4 : (teamStats.benchPlayers team).length ≠ 4 := by omega
        simp [h4, h3]
  refine ⟨hstart, hvalid, ?_, ?_, ?_⟩
  · intro hne
    unfold teamStats.isValid at hne ⊢
    split
    · rename_i hc
      rw [if_pos hc] at hne
      rw [hf] at hne ⊢
      simp only [ne_eq, Option.some.injEq] at hne ⊢
      cases hv : ((team.defenders.filter Slot.filled).length == formation.defenders &&
        (team.midfielders.filter Slot.filled).length == formation.midfielders &&
        (team.forwards.filter Slot.filled).length == formation.forwards)
      · rfl
      · exact absurd hv hne
    · rfl
  · intro hlen
    constructor
    · intro h3 slot hs
      exact (List.filter_length_eq_length.1 (h3.trans hlen.symm)) slot hs
    · intro hall
      rw [List.filter_eq_self.2 hall, hlen]
  · intro hv
    have h := hvalid.1 hv
    rw [totalPlayers_eq, hstart, hbench, h.1, h.2]
    rfl

/-- C24 at a concrete input: a full 3-4-3 team is valid and has 15 players. -/
theorem formation_validity_witness :
    teamStats.isValid
        { goalkeeper := some 1, defenders := [some 2, some 3, some 4],
          midfielders := [some 5, some 6, some 7, some 8],
          forwards := [some 9, some 10, some 11],
          bench := { goalkeeper := some 12, outfield := [some 13, some 14, some 15] } }
        "3-4-3" = some true ∧
      teamStats.totalPlayers
        { goalkeeper := some 1, defenders := [some 2, some 3, some 4],
          midfielders := [some 5, some 6, some 7, some 8],
          forwards := [some 9, some 10, some 11],
          bench := { goalkeeper := some 12, outfield := [some 13, some 14, some 15] } } = 15 :=
  ⟨rfl,
    (formation_validity.2
      { goalkeeper := some 1, defenders := [some 2, some 3, some 4],
        midfielders := [some 5, some 6, some 7, some 8],
        forwards := [some 9, some 10, some 11],
        bench := { goalkeeper := some 12, outfield := [some 13, some 14, some 15] } }
      "3-4-3" { defenders := 3, midfielders := 4, forwards := 3 } rfl rfl rfl rfl rfl).2.2.2.2
      rfl⟩

/-! ## Number values on the binary64 grid -/

/-- Rounding gives a value on the grid. -/
theorem roundMV_onGrid (q : ℚ) : (roundMV q).OnGrid := by
  unfold roundMV
  split
  · exact ⟨0, by simp⟩
  · simp only
    split
    · trivial
    · have he : (0 : ℤ) ≤ max (floorLog2 q) (-1022) + 1022 := by
        have := le_max_right (floorLog2 q) (-1022)
        omega
      refine ⟨roundHalfEven (q / (2 : ℚ) ^ (max (floorLog2 q) (-1022) - 52)) *
        (2 : ℤ) ^ (max (floorLog2 q) (-1022) + 1022).toNat, ?_⟩
      have h2 : (2 : ℚ) ≠ 0 := by norm_num
      have hpow : (2 : ℚ) ^ (max (floorLog2 q) (-1022) - 52) =
          (2 : ℚ) ^ ((max (floorLog2 q) (-1022) + 1022).toNat : ℤ) * (2 : ℚ) ^ (-1074 : ℤ) := by
        rw [← zpow_add₀ h2, Int.toNat_of_nonneg he]
        congr 1
        ring
      rw [hpow, zpow_natCast]
      push_cast
      ring

/-- The negation of a value on the grid is on the grid. -/
theorem neg_onGrid (x : JSNumber) (h : x.OnGrid) : x.neg.OnGrid := by
  cases x with
  | fin q =>
    obtain ⟨n, hn⟩ := h
    exact ⟨-n, by rw [hn]; push_cast; ring⟩
  | nan => trivial
  | posInf => trivial
  | negInf => trivial

/-- Rounding a value of either sign gives a value on the grid. -/
theorem roundSigned_onGrid (q : ℚ) : (roundSigned q).OnGrid := by
  unfold roundSigned
  split
  · exact neg_onGrid _ (roundMV_onGrid _)
  · exact roundMV_onGrid _

/-- A sum of Number values is on the grid. -/
theorem add_onGrid (x y : JSNumber) : (x.add y).OnGrid := by
  cases x <;> cases y <;> first | trivial | exact roundSigned_onGrid _

/-- The Number value of a mathematical value that is at least the least
positive binary64 value is greater than 0. -/
theorem roundMV_pos_of_min (q : ℚ) (hq : (2 : ℚ) ^ (-1074 : ℤ) ≤ q) :
    JSNumber.lt (.fin 0) (roundMV q) = true := by
  have hmin : (0 : ℚ) < (2 : ℚ) ^ (-1074 : ℤ) := by positivity
  have hq0 : 0 < q := lt_of_lt_of_le hmin hq
  have hspec := floorLog2_spec q hq0
  have h12 : (1 : ℚ) ≤ 2 := by norm_num
  have hulp : (2 : ℚ) ^ (max (floorLog2 q) (-1022) - 52) ≤ q := by
    rcases max_cases (floorLog2 q) (-1022) with ⟨he, -⟩ | ⟨he, -⟩
    · rw [he]
      exact le_trans (zpow_le_zpow_right₀ h12 (by omega)) hspec.1
    · rw [he]
      exact hq
  have hupos : (0 : ℚ) < (2 : ℚ) ^ (max (floorLog2 q) (-1022) - 52) := by positivity
  have hx : 1 ≤ q / (2 : ℚ) ^ (max (floorLog2 q) (-1022) - 52) := by
    rw [le_div_iff₀ hupos]
    simpa using hulp
  have hr := roundHalfEven_spec (q / (2 : ℚ) ^ (max (floorLog2 q) (-1022) - 52))
  rw [abs_le] at hr
  have hn : (0 : ℚ) < (roundHalfEven (q / (2 : ℚ) ^ (max (floorLog2 q) (-1022) - 52)) : ℚ) := by
    linarith [hr.1]
  unfold roundMV
  rw [if_neg (ne_of_gt hq0)]
  simp only
  split
  · rfl
  · simp only [JSNumber.lt, decide_eq_true_eq]
    exact mul_pos hn hupos

/-- For two finite values on the grid, the difference `y - x` computed on
Number values is greater than 0 exactly when `x < y`. -/
theorem sub_fin_pos_iff (a b : ℚ) (ha : (JSNumber.fin a).OnGrid) (hb : (JSNumber.fin b).OnGrid) :
    JSNumber.lt (.fin 0) (JSNumber.sub (.fin b) (.fin a)) = decide (a < b) := by
  obtain ⟨m, hm⟩ := ha
  obtain ⟨n, hn⟩ := hb
  have hmin : (0 : ℚ) < (2 : ℚ) ^ (-1074 : ℤ) := by positivity
  simp only [JSNumber.sub, roundSigned]
  split
  · rename_i hneg
    rw [roundMV_not_neg _ (by linarith)]
    symm
    rw [decide_eq_false_iff_not]
    linarith
  · rename_i hnn
    rw [not_lt] at hnn
    by_cases heq : b - a = 0
    · rw [heq]
      have : ¬ a < b := by linarith
      simp [roundMV, JSNumber.lt, this]
    · have hpos : 0 < b - a := lt_of_le_of_ne hnn (Ne.symm heq)
      have hnm : m < n := by
        have h1 : (m : ℚ) * (2 : ℚ) ^ (-1074 : ℤ) < (n : ℚ) * (2 : ℚ) ^ (-1074 : ℤ) := by
          rw [← hm, ← hn]
          linarith
        have h2 : (m : ℚ) < (n : ℚ) := lt_of_mul_lt_mul_right h1 (le_of_lt hmin)
        exact_mod_cast h2
      have hge : (2 : ℚ) ^ (-1074 : ℤ) ≤ b - a := by
        have h1 : (1 : ℚ) ≤ (n : ℚ) - (m : ℚ) := by
          have : (1 : ℤ) ≤ n - m := by omega
          exact_mod_cast this
        have h2 : b - a = ((n : ℚ) - (m : ℚ)) * (2 : ℚ) ^ (-1074 : ℤ) := by
          rw [hm, hn]
          ring
        rw [h2]
        calc (2 : ℚ) ^ (-1074 : ℤ) = 1 * (2 : ℚ) ^ (-1074 : ℤ) := (one_mul _).symm
          _ ≤ ((n : ℚ) - (m : ℚ)) * (2 : ℚ) ^ (-1074 : ℤ) :=
              mul_le_mul_of_nonneg_right h1 (le_of_lt hmin)
      rw [roundMV_pos_of_min _ hge]
      symm
      rw [decide_eq_true_eq]
      linarith

/-- For two values on the grid, neither NaN, the comparator result `y - x` is
greater than 0 exactly when `x < y`. -/
theorem sub_pos_iff_lt (x y : JSNumber) (hx : x.OnGrid) (hy : y.OnGrid) (hxn : x ≠ .nan)
    (hyn : y ≠ .nan) : JSNumber.lt (.fin 0) (JSNumber.sub y x) = JSNumber.lt x y := by
  cases x with
  | nan => exact absurd rfl hxn
  | posInf => cases y <;> first | exact absurd rfl hyn | rfl
  | negInf => cases y <;> first | exact absurd rfl hyn | rfl
  | fin a =>
    cases y with
    | nan => exact absurd rfl hyn
    | posInf => rfl
    | negInf => rfl
    | fin b => rw [sub_fin_pos_iff a b hx hy]; rfl

/-! ## Expected points (C23) -/

/-- C23. With the data loaded, `teamStats.expectedPoints` is `toFixed(1)` of the
sum of the expected points of the starting players, the captain's counted
twice, or three times when the triple-captain chip is active, plus the sum over
the bench players when and only when the bench-boost chip is active; a player
that is missing from the data, or whose `ep_next` is `null` or empty, counts
as 0. Sums and products are those of Number values. -/
theorem expected_points_spec (toFixed : JSNumber → Nat → String) (team : Team)
    (elements : List Element) (captain : Slot) (activeChip : Option String) :
    teamStats.expectedPoints toFixed team elements captain activeChip =
        toFixed (expectedPointsSum team elements captain activeChip) 1 ∧
      (∀ playerId, elements.find? (fun p => some p.id == playerId) = none →
        teamStats.playerEp elements playerId = .fin 0) ∧
      ∀ playerId player, elements.find? (fun p => some p.id == playerId) = some player →
        (player.ep_next = none ∨ player.ep_next = some "") →
        teamStats.playerEp elements playerId = .fin 0 := by
  refine ⟨?_, ?_, ?_⟩
  · unfold teamStats.expectedPoints
    congr 1
    unfold teamStats.expectedPointsValue expectedPointsSum sumNumbers
    have hstart : (teamStats.startingEleven team).foldl
        (teamStats.addStarter elements captain activeChip) (.fin 0) =
        List.foldl JSNumber.add (.fin 0)
          ((teamStats.startingEleven team).map fun playerId =>
            if playerId = captain then
              (teamStats.playerEp elements playerId).mul
                (if activeChip = some "triple-captain" then .fin 3 else .fin 2)
            else teamStats.playerEp elements playerId) := by
      rw [List.foldl_map]
      congr 1
      funext sum playerId
      unfold teamStats.addStarter
      by_cases hc : playerId = captain <;> by_cases ht : activeChip = some "triple-captain" <;>
        simp [hc, ht]
    have hbench : (teamStats.benchPlayers team).foldl
        (fun sum playerId => sum.add (teamStats.playerEp elements playerId)) (.fin 0) =
        List.foldl JSNumber.add (.fin 0)
          ((teamStats.benchPlayers team).map (teamStats.playerEp elements)) := by
      rw [List.foldl_map]
    simp only [hstart, hbench]
  · intro playerId h
    simp [teamStats.playerEp, h]
  · intro playerId player h hep
    have he : jsNot "" = true := by decide
    rcases hep with hep | hep <;> simp [teamStats.playerEp, h, hep, he]

/-- C23 at a concrete input: the captain (player 2, 6.5) counts twice, player 9
is not in the data and counts as 0. -/
theorem expected_points_spec_witness :
    teamStats.playerEp
        [⟨1, 1, 1, "a", none, some "5.0", "4.0"⟩, ⟨2, 2, 4, "a", none, some "6.5", "7.1"⟩]
        (some 9) = .fin 0 ∧
      teamStats.expectedPointsValue
        { goalkeeper := some 1, defenders := [some 2, none], midfielders := [some 9],
          forwards := [], bench := { goalkeeper := none, outfield := [] } }
        [⟨1, 1, 1, "a", none, some "5.0", "4.0"⟩, ⟨2, 2, 4, "a", none, some "6.5", "7.1"⟩]
        (some 2) none = .fin 18 :=
  ⟨(expected_points_spec (fun _ _ => "") 
      { goalkeeper := some 1, defenders := [some 2, none], midfielders := [some 9],
        forwards := [], bench := { goalkeeper := none, outfield := [] } }
      [⟨1, 1, 1, "a", none, some "5.0", "4.0"⟩, ⟨2, 2, 4, "a", none, some "6.5", "7.1"⟩]
      (some 2) none).2.1 (some 9) rfl,
    by decide!⟩

/-! ## The gems captain list (C22) -/

/-- Inserting into a sorted list keeps it sorted, for a relation that is total
and transitive on the values in play. -/
theorem orderedInsert_sorted_on {α : Type} (r : α → α → Prop) [DecidableRel r]
    (S : α → Prop) (htot : ∀ x y, S x → S y → r x y ∨ r y x)
    (htr : ∀ x y z, S x → S y → S z → r x y → r y z → r x z) (a : α) (ha : S a)
    (l : List α) (hl : ∀ b ∈ l, S b) (hs : l.Sorted r) : (l.orderedInsert r a).Sorted r := by
  induction l with
  | nil => simp
  | cons b l ih =>
    have hb : S b := hl b (List.mem_cons_self b l)
    have hl' : ∀ c ∈ l, S c := fun c hc => hl c (List.mem_cons_of_mem b hc)
    rw [List.sorted_cons] at hs
    by_cases h : r a b
    · simp only [List.orderedInsert, h, if_true]
      rw [List.sorted_cons]
      refine ⟨?_, List.sorted_cons.2 hs⟩
      intro c hc
      rcases List.mem_cons.1 hc with hc | hc
      · rw [hc]; exact h
      · exact htr a b c ha hb (hl' c hc) h (hs.1 c hc)
    · simp only [List.orderedInsert, h, if_false]
      rw [List.sorted_cons]
      refine ⟨?_, ih hl' hs.2⟩
      intro c hc
      rcases (List.mem_orderedInsert r).1 hc with hc | hc
      · rw [hc]
        rcases htot a b ha hb with h' | h'
        · exact absurd h' h
        · exact h'
      · exact hs.1 c hc

/-- Insertion sort gives a sorted list, for a relation that is total and
transitive on the values in the list. -/
theorem insertionSort_sorted_on {α : Type} (r : α → α → Prop) [DecidableRel r]
    (S : α → Prop) (htot : ∀ x y, S x → S y → r x y ∨ r y x)
    (htr : ∀ x y z, S x → S y → S z → r x y → r y z → r x z) (l : List α)
    (hl : ∀ b ∈ l, S b) : (l.insertionSort r).Sorted r := by
  induction l with
  | nil => simp
  | cons a l ih =>
    have hl' : ∀ c ∈ l, S c := fun c hc => hl c (List.mem_cons_of_mem a hc)
    simp only [List.insertionSort]
    apply orderedInsert_sorted_on r S htot htr a (hl a (List.mem_cons_self a l))
    · intro c hc
      exact hl' c ((List.mem_insertionSort r).1 hc)
    · exact ih hl'

/-- The score `calculateCaptainScore` gives is on the grid. -/
theorem calculateCaptainScore_onGrid (elements : Option (List Element))
    (fixtures : List Fixture) (player : Element) :
    (Gems.calculateCaptainScore elements fixtures player).OnGrid := by
  unfold Gems.calculateCaptainScore
  split
  · exact ⟨0, by simp⟩
  · split
    · exact ⟨0, by simp⟩
    · exact add_onGrid _ _

/-- Sorting scored entries by `(a, b) => b.score - a.score`, none of the scores
being NaN, gives a list in which no entry has a lower score than a later one. -/
theorem sortWith_score_sorted (entries : List (Element × JSNumber))
    (hgrid : ∀ c ∈ entries, c.2.OnGrid) (hnan : ∀ c ∈ entries, c.2 ≠ .nan) :
    (sortWith (fun a b => JSNumber.sub b.2 a.2) entries).Sorted
      (fun a b => JSNumber.lt a.2 b.2 = false) := by
  have hr : ∀ x y : Element × JSNumber, (x.2.OnGrid ∧ x.2 ≠ .nan) → (y.2.OnGrid ∧ y.2 ≠ .nan) →
      (staysBefore (fun a b => JSNumber.sub b.2 a.2) x y = true ↔
        JSNumber.lt x.2 y.2 = false) := by
    intro x y hx hy
    unfold staysBefore
    simp only
    rw [sub_pos_iff_lt x.2 y.2 hx.1 hy.1 hx.2 hy.2]
    cases JSNumber.lt x.2 y.2 <;> simp
  have hasym : ∀ a b : JSNumber, a ≠ .nan → b ≠ .nan →
      JSNumber.lt a b = false ∨ JSNumber.lt b a = false := by
    intro a b ha hb
    cases a <;> cases b <;> simp only [JSNumber.lt, decide_eq_false_iff_not, not_lt, or_true,
      true_or, or_self, Bool.true_eq_false, or_false, false_or]
    all_goals first | exact absurd rfl ha | exact absurd rfl hb | exact le_total _ _
  have htrans : ∀ a b c : JSNumber, a ≠ .nan → b ≠ .nan → c ≠ .nan →
      JSNumber.lt a b = false → JSNumber.lt b c = false → JSNumber.lt a c = false := by
    intro a b c ha hb hc h₁ h₂
    cases a <;> cases b <;> cases c <;>
      simp only [JSNumber.lt, decide_eq_false_iff_not, not_lt, Bool.true_eq_false] at h₁ h₂ ⊢
    all_goals first
      | exact absurd rfl ha
      | exact absurd rfl hb
      | exact absurd rfl hc
      | exact le_trans h₂ h₁
  have hs := insertionSort_sorted_on
    (fun a b : Element × JSNumber => staysBefore (fun a b => JSNumber.sub b.2 a.2) a b = true)
    (fun c => c.2.OnGrid ∧ c.2 ≠ .nan)
    (fun x y hx hy => by
      rcases hasym x.2 y.2 hx.2 hy.2 with h | h
      · exact Or.inl ((hr x y hx hy).2 h)
      · exact Or.inr ((hr y x hy hx).2 h))
    (fun x y z hx hy hz h₁ h₂ =>
      (hr x z hx hz).2
        (htrans x.2 y.2 z.2 hx.2 hy.2 hz.2 ((hr x y hx hy).1 h₁) ((hr y z hy hz).1 h₂)))
    entries (fun c hc => ⟨hgrid c hc, hnan c hc⟩)
  unfold sortWith
  have hmem : ∀ c ∈ entries.insertionSort
      (fun a b => staysBefore (fun a b => JSNumber.sub b.2 a.2) a b = true),
      c.2.OnGrid ∧ c.2 ≠ .nan := by
    intro c hc
    have := (List.mem_insertionSort _).1 hc
    exact ⟨hgrid c this, hnan c this⟩
  refine List.Pairwise.imp_of_mem ?_ hs
  intro a b ha hb h
  exact (hr a b (hmem a ha) (hmem b hb)).1 h

/-- The captain list followed by the candidates left out is the sorted list of
candidates. -/
theorem captains_append_leftOut (elements : List Element) (fixtures : List Fixture)
    (hfix : fixtures.length ≠ 0) :
    Gems.captains (some elements) fixtures ++ Gems.leftOut elements fixtures =
      sortWith (fun a b => JSNumber.sub b.2 a.2) (Gems.captainCandidates elements fixtures) := by
  simp only [Gems.captains, hfix, if_false, Gems.leftOut]
  exact List.take_append_drop 5 _

/-- What it means to be a candidate. -/
theorem mem_captainCandidates (elements : List Element) (fixtures : List Fixture)
    (c : Element × JSNumber) (hc : c ∈ Gems.captainCandidates elements fixtures) :
    c.1 ∈ elements ∧
      (getPlayerStatus c.1.status c.1.chance_of_playing_next_round).available = true ∧
      (∃ ep, c.1.ep_next = some ep ∧ ep ≠ "" ∧ jsGt ep 0 = true ∧
        c.2 = Gems.weightedScore (parseFloat ep).orZero (parseFloat c.1.form).orZero
          (Gems.fdrOf (Gems.getNextOpponent (some elements) fixtures c.1.id))) ∧
      c.1.element_type ≥ 3 ∧
      c.2 = Gems.calculateCaptainScore (some elements) fixtures c.1 := by
  unfold Gems.captainCandidates at hc
  rw [List.mem_map] at hc
  obtain ⟨player, hp, rfl⟩ := hc
  rw [List.mem_filter, List.mem_filter] at hp
  obtain ⟨⟨hmem, hav⟩, het⟩ := hp
  simp only [decide_eq_true_eq] at het
  unfold Gems.isAvailable at hav
  rw [Bool.and_eq_true] at hav
  obtain ⟨hstatus, hep⟩ := hav
  refine ⟨hmem, hstatus, ?_, het, rfl⟩
  cases h : player.ep_next with
  | none => rw [h] at hep; exact Bool.noConfusion hep
  | some ep =>
    rw [h] at hep
    simp only [Bool.and_eq_true, Bool.not_eq_true'] at hep
    refine ⟨ep, rfl, (jsNot_eq_false_iff ep).1 hep.1, hep.2, ?_⟩
    simp [Gems.calculateCaptainScore, h, hep.1]

/-- C22. With data and fixtures present, the gems captain list is the first
five entries of the eligible players in sorted order: it has at most 5
entries; each is an available player of the data with `ep_next > 0` and
`element_type >= 3`, scored `0.5 * ep_next + 0.3 * form + 0.2 * (5 - fdr)` on
Number values, where `fdr` is 3 when no next opponent is known and the
opponent's difficulty when that is known and not 0; together with the
candidates left out it is a rearrangement of all eligible players, and players
are left out only when the list is full; and when no score is NaN, the list is
in non-increasing order of score and no player left out has a higher score
than one included. -/
theorem captain_list_spec (elements : List Element) (fixtures : List Fixture)
    (hfix : fixtures.length ≠ 0) :
    (Gems.captains (some elements) fixtures).length ≤ 5 ∧
      (∀ c ∈ Gems.captains (some elements) fixtures,
        c.1 ∈ elements ∧
          (getPlayerStatus c.1.status c.1.chance_of_playing_next_round).available = true ∧
          (∃ ep, c.1.ep_next = some ep ∧ ep ≠ "" ∧ jsGt ep 0 = true ∧
            c.2 = Gems.weightedScore (parseFloat ep).orZero (parseFloat c.1.form).orZero
              (Gems.fdrOf (Gems.getNextOpponent (some elements) fixtures c.1.id))) ∧
          c.1.element_type ≥ 3 ∧
          c.2 = Gems.calculateCaptainScore (some elements) fixtures c.1) ∧
      (Gems.fdrOf none = 3 ∧
        ∀ o : NextOpponent, o.difficulty ≠ 0 → Gems.fdrOf (some o) = o.difficulty) ∧
      (Gems.captains (some elements) fixtures ++ Gems.leftOut elements fixtures).Perm
        (Gems.captainCandidates elements fixtures) ∧
      (Gems.leftOut elements fixtures ≠ [] →
        (Gems.captains (some elements) fixtures).length = 5) ∧
      ((∀ c ∈ Gems.captainCandidates elements fixtures, c.2 ≠ .nan) →
        (Gems.captains (some elements) fixtures).Sorted
            (fun a b => JSNumber.lt a.2 b.2 = false) ∧
          ∀ c ∈ Gems.captains (some elements) fixtures,
            ∀ d ∈ Gems.leftOut elements fixtures, JSNumber.lt c.2 d.2 = false) := by
  have happ := captains_append_leftOut elements fixtures hfix
  have hperm : (Gems.captains (some elements) fixtures ++ Gems.leftOut elements fixtures).Perm
      (Gems.captainCandidates elements fixtures) := by
    rw [happ]
    exact List.perm_insertionSort _ _
  refine ⟨?_, ?_, ⟨rfl, ?_⟩, hperm, ?_, ?_⟩
  · simp only [Gems.captains, hfix, if_false, List.length_take]
    exact Nat.min_le_left _ _
  · intro c hc
    apply mem_captainCandidates elements fixtures c
    exact hperm.subset (List.mem_append_left _ hc)
  · intro o ho
    simp [Gems.fdrOf, ho]
  · intro hne
    simp only [Gems.leftOut, ne_eq, List.drop_eq_nil_iff, not_le] at hne
    simp only [Gems.captains, hfix, if_false, List.length_take]
    omega
  · intro hnan
    have hgrid : ∀ c ∈ Gems.captainCandidates elements fixtures, c.2.OnGrid := by
      intro c hc
      rw [(mem_captainCandidates elements fixtures c hc).2.2.2.2]
      exact calculateCaptainScore_onGrid _ _ _
    have hs := sortWith_score_sorted (Gems.captainCandidates elements fixtures) hgrid hnan
    rw [← happ] at hs
    have hp := List.pairwise_append.1 hs
    exact ⟨hp.1, hp.2.2⟩

/-- C22 at a concrete input: nine players, of which six are eligible; the list
is players 2, 1, 6, 9, 8 and player 7 is left out. -/
theorem captain_list_spec_witness :
    (Gems.captains
        (some [⟨1, 1, 3, "a", none, some "5.0", "4.0"⟩, ⟨2, 2, 4, "a", none, some "6.5", "7.1"⟩,
          ⟨3, 3, 2, "a", none, some "9.0", "9.0"⟩, ⟨4, 3, 3, "a", none, some "0.0", "9.0"⟩,
          ⟨5, 9, 4, "i", none, some "2.0", "1.0"⟩, ⟨6, 1, 3, "a", none, some "5.0", "4.0"⟩,
          ⟨7, 2, 3, "a", none, some "3", "3"⟩, ⟨8, 2, 3, "a", none, some "4", "3"⟩,
          ⟨9, 2, 3, "a", none, some "4.5", "3"⟩])
        [⟨1, 2, true, 2, 4⟩, ⟨1, 2, false, 2, 4⟩, ⟨3, 1, false, 5, 1⟩]).map
        (fun c => c.1.id) = [2, 1, 6, 9, 8] ∧
      (Gems.captains
        (some [⟨1, 1, 3, "a", none, some "5.0", "4.0"⟩, ⟨2, 2, 4, "a", none, some "6.5", "7.1"⟩,
          ⟨3, 3, 2, "a", none, some "9.0", "9.0"⟩, ⟨4, 3, 3, "a", none, some "0.0", "9.0"⟩,
          ⟨5, 9, 4, "i", none, some "2.0", "1.0"⟩, ⟨6, 1, 3, "a", none, some "5.0", "4.0"⟩,
          ⟨7, 2, 3, "a", none, some "3", "3"⟩, ⟨8, 2, 3, "a", none, some "4", "3"⟩,
          ⟨9, 2, 3, "a", none, some "4.5", "3"⟩])
        [⟨1, 2, true, 2, 4⟩, ⟨1, 2, false, 2, 4⟩, ⟨3, 1, false, 5, 1⟩]).Sorted
        (fun a b => JSNumber.lt a.2 b.2 = false) :=
  ⟨by decide!,
    ((captain_list_spec
      [⟨1, 1, 3, "a", none, some "5.0", "4.0"⟩, ⟨2, 2, 4, "a", none, some "6.5", "7.1"⟩,
        ⟨3, 3, 2, "a", none, some "9.0", "9.0"⟩, ⟨4, 3, 3, "a", none, some "0.0", "9.0"⟩,
        ⟨5, 9, 4, "i", none, some "2.0", "1.0"⟩, ⟨6, 1, 3, "a", none, some "5.0", "4.0"⟩,
        ⟨7, 2, 3, "a", none, some "3", "3"⟩, ⟨8, 2, 3, "a", none, some "4", "3"⟩,
        ⟨9, 2, 3, "a", none, some "4.5", "3"⟩]
      [⟨1, 2, true, 2, 4⟩, ⟨1, 2, false, 2, 4⟩, ⟨3, 1, false, 5, 1⟩]
      (by decide)).2.2.2.2.2 (by decide!)).1⟩

end FplHub
